import Mathlib

set_option maxRecDepth 16000

/-!
Verification development for the Hack VM-to-assembly translator
(repository `silacode/vm_translator`).

The repository contains two parallel implementations:

* the modular one: `src/vm_translator/constants.py`, `parser.py`,
  `code_writer.py` (class `CodeWriter` with `label_counter`,
  `current_file`, `function_name`);
* the older monolithic driver `src/vm_translator/main.py`, which has its
  own `Parser`/`CodeWriter` (uuid-based labels, bootstrap emitted
  unconditionally in `CodeWriter.__enter__`) and is the actual entry
  point (`main()`).

Both are embedded below.  Pure string-building methods become Lean
functions on explicit `CWState` values; the emitted comparison /
call / return assembly is additionally transcribed into a small Hack
machine model (`Mach`, `Instr`, `runProg` / `execStraight`) so that the
behavioural claims about the generated code can be proved.  Machine
words are signed integers normalised to the 16-bit two's-complement
range by `wnorm`.
-/

/-! ## Python string primitives

The translator builds its output with Python `str` operations
(`split()`, `strip()`, `replace`, `format`, `str(int)`).  They are
modelled structurally on `List Char` so that every definition reduces
in the kernel. -/

/-- Worker for `pyTokens`: `acc` holds the current token, reversed. -/
def wordsAux : List Char → List Char → List String
  | [], acc => if acc.isEmpty then [] else [⟨acc.reverse⟩]
  | ch :: rest, acc =>
    if ch.isWhitespace then
      if acc.isEmpty then wordsAux rest [] else (⟨acc.reverse⟩ : String) :: wordsAux rest []
    else wordsAux rest (ch :: acc)

/-- Python `line.split()`: split on whitespace runs, dropping empty tokens. -/
def pyTokens (line : String) : List String := wordsAux line.data []

/-- Python `str.strip()` on a character list. -/
def stripChars (l : List Char) : List Char :=
  ((l.dropWhile Char.isWhitespace).reverse.dropWhile Char.isWhitespace).reverse

/-- Python `str.strip()`. -/
def pyStrip (s : String) : String := ⟨stripChars s.data⟩

/-- Python `str.replace` (leftmost, non-overlapping, all occurrences),
fuelled by the list length so it is structurally recursive. -/
def replaceAux (pat rep : List Char) : Nat → List Char → List Char
  | 0, l => l
  | _ + 1, [] => []
  | fuel + 1, ch :: rest =>
    if pat ≠ [] ∧ pat.isPrefixOf (ch :: rest) then
      rep ++ replaceAux pat rep fuel ((ch :: rest).drop pat.length)
    else
      ch :: replaceAux pat rep fuel rest

/-- Python `s.replace(pat, rep)`. -/
def replaceAllStr (s pat rep : String) : String :=
  ⟨replaceAux pat.data rep.data s.data.length s.data⟩

/-- Python `template.format(arg)` for templates whose only placeholder is
a number in braces (index 0), as in `ARITHMETIC_TEMPLATES`. -/
def pyFormat1 (t : String) (arg : String) : String := replaceAllStr t "{0}" arg

/-- Python `template.format(a0, a1)` for the two-placeholder segment
templates. -/
def pyFormat2 (t : String) (a0 a1 : String) : String :=
  replaceAllStr (replaceAllStr t "{0}" a0) "{1}" a1

/-- Decimal digits of `n`, least significant first; fuelled so that it is
structurally recursive (`natDigitsAux n n` is the digit list of `n`). -/
def natDigitsAux : Nat → Nat → List Nat
  | 0, _ => []
  | _ + 1, 0 => []
  | fuel + 1, n + 1 => ((n + 1) % 10) :: natDigitsAux fuel ((n + 1) / 10)

/-- Python `str(n)` for a nonnegative integer: decimal rendering. -/
def natRepr (n : Nat) : String :=
  if n = 0 then "0" else ⟨((natDigitsAux n n).map Nat.digitChar).reverse⟩

/-- Python `str(i)` for an `int`. -/
def intRepr (i : Int) : String :=
  if i < 0 then "-" ++ natRepr (-i).toNat else natRepr i.toNat

/-! ## `constants.py` -/

/-- `CommandType` enum. -/
inductive CommandType
  | c_arithmetic
  | c_push
  | c_pop
  | c_label
  | c_goto
  | c_if
  | c_function
  | c_return
  | c_call
deriving DecidableEq

/-- `ARITHMETIC_COMMANDS`. -/
def ARITHMETIC_COMMANDS : List String :=
  ["add", "sub", "neg", "eq", "gt", "lt", "and", "or", "not"]

/-- `COMMAND_TYPE_MAP` (a Python dict; `.get` on a missing key is `None`). -/
def COMMAND_TYPE_MAP (s : String) : Option CommandType :=
  if s = "push" then some CommandType.c_push
  else if s = "pop" then some CommandType.c_pop
  else if s = "label" then some CommandType.c_label
  else if s = "goto" then some CommandType.c_goto
  else if s = "if-goto" then some CommandType.c_if
  else if s = "function" then some CommandType.c_function
  else if s = "return" then some CommandType.c_return
  else if s = "call" then some CommandType.c_call
  else Option.none

/-- `BASE_SEGMENTS`. -/
def BASE_SEGMENTS : List String := ["local", "argument", "this", "that"]

/-- `SEGMENT_MAP`. -/
def SEGMENT_MAP (s : String) : Option String :=
  if s = "local" then some "LCL"
  else if s = "argument" then some "ARG"
  else if s = "this" then some "THIS"
  else if s = "that" then some "THAT"
  else if s = "constant" then some "CONSTANT"
  else if s = "static" then some "static"
  else if s = "pointer" then some "pointer"
  else if s = "temp" then some "5"
  else Option.none

/-- `ARITHMETIC_TEMPLATES` (indexing a missing key raises, hence `Option`). -/
def ARITHMETIC_TEMPLATES (s : String) : Option String :=
  if s = "add" then some "@SP\nAM=M-1\nD=M\nA=A-1\nM=D+M"
  else if s = "sub" then some "@SP\nAM=M-1\nD=M\nA=A-1\nM=M-D"
  else if s = "neg" then some "@SP\nA=M-1\nM=-M"
  else if s = "eq" then some "@SP\nAM=M-1\nD=M\nA=A-1\nD=M-D\n@JUMP_{0}\nD;JEQ\n@SP\nA=M-1\nM=0\n@CONTINUE_{0}\n0;JMP\n(JUMP_{0})\n@SP\nA=M-1\nM=-1\n(CONTINUE_{0})"
  else if s = "gt" then some "@SP\nAM=M-1\nD=M\nA=A-1\nD=M-D\n@JUMP_{0}\nD;JGT\n@SP\nA=M-1\nM=0\n@CONTINUE_{0}\n0;JMP\n(JUMP_{0})\n@SP\nA=M-1\nM=-1\n(CONTINUE_{0})"
  else if s = "lt" then some "@SP\nAM=M-1\nD=M\nA=A-1\nD=M-D\n@JUMP_{0}\nD;JLT\n@SP\nA=M-1\nM=0\n@CONTINUE_{0}\n0;JMP\n(JUMP_{0})\n@SP\nA=M-1\nM=-1\n(CONTINUE_{0})"
  else if s = "and" then some "@SP\nAM=M-1\nD=M\nA=A-1\nM=D&M"
  else if s = "or" then some "@SP\nAM=M-1\nD=M\nA=A-1\nM=D|M"
  else if s = "not" then some "@SP\nA=M-1\nM=!M"
  else Option.none

/-- `BOOTSTRAP_CODE`. -/
def BOOTSTRAP_CODE : String := "@256\nD=A\n@SP\nM=D\n"

/-- `PUSH_BASE_SEGMENTS_TEMPLATE`. -/
def PUSH_BASE_SEGMENTS_TEMPLATE : String :=
  "@{0}\nD=A\n@{1}\nA=D+M\nD=M\n@SP\nA=M\nM=D\n@SP\nM=M+1\n"

/-- `POP_BASE_SEGMENTS_TEMPLATE`. -/
def POP_BASE_SEGMENTS_TEMPLATE : String :=
  "@{0}\nD=A\n@{1}\nD=D+M\n@R13\nM=D\n@SP\nAM=M-1\nD=M\n@R13\nA=M\nM=D\n"

/-- `PUSH_TEMPLATE`. -/
def PUSH_TEMPLATE : String := "@SP\nA=M\nM=D\n@SP\nM=M+1\n"

/-- `POP_TEMPLATE`. -/
def POP_TEMPLATE : String := "@SP\nAM=M-1\nD=M\n"

/-! ## `parser.py` -/

/-- `Parser.command_type`: the kind is chosen by the first
whitespace-separated token alone.  (On a line with no tokens Python
would raise `IndexError`; the driver never reaches that case because
`advance` skips blank lines, and we return `none` there.) -/
def command_type (line : String) : Option CommandType :=
  match pyTokens line with
  | [] => Option.none
  | cmd :: _ =>
    if cmd ∈ ARITHMETIC_COMMANDS then some CommandType.c_arithmetic
    else COMMAND_TYPE_MAP cmd

/-- `Parser.args`: the whitespace-split token list of the current line. -/
def parser_args (line : String) : List String := pyTokens line

/-! ## `code_writer.py` : class `CodeWriter`

The scalar state of the generator.  The output file handle is not part
of the model; each emission returns the text it passes to `_write`. -/

structure CWState where
  label_counter : Nat
  current_file : String
  function_name : String
deriving DecidableEq

/-- `CodeWriter._write`: the chunk actually written is
`text.strip() + "\n\n"`. -/
def cw_write (text : String) : String := pyStrip text ++ "\n\n"

/-- `CodeWriter.writer_arithmetic`.  For `eq`/`gt`/`lt` the counter is
incremented first and the incremented value fills the `JUMP_`/`CONTINUE_`
placeholders. -/
def writer_arithmetic (st : CWState) (command : String) : CWState × Option String :=
  if command ∈ (["eq", "gt", "lt"] : List String) then
    ({ st with label_counter := st.label_counter + 1 },
      (ARITHMETIC_TEMPLATES command).map
        (fun t => "//" ++ command ++ "\n" ++ pyFormat1 t (natRepr (st.label_counter + 1)) ++ "\n"))
  else
    (st, (ARITHMETIC_TEMPLATES command).map
      (fun t => "//" ++ command ++ "\n" ++ t ++ "\n"))

/-- `CodeWriter._handle_push`: `none` means the `if`/`elif` chain fell
through and nothing was written. -/
def handle_push (st : CWState) (segment : String) (index : Int) : Option String :=
  if segment = "constant" then
    some ("// push constant " ++ intRepr index ++ "\n@" ++ intRepr index ++ "\nD=A\n" ++ PUSH_TEMPLATE)
  else if segment = "static" then
    some ("// push static " ++ intRepr index ++ "\n@" ++ st.current_file ++ "." ++ intRepr index ++ "\nD=M\n" ++ PUSH_TEMPLATE)
  else if segment ∈ BASE_SEGMENTS then
    some (pyFormat2 PUSH_BASE_SEGMENTS_TEMPLATE (intRepr index) ((SEGMENT_MAP segment).getD ""))
  else if segment = "temp" then
    some ("// push temp " ++ intRepr index ++ "\n@" ++ intRepr (5 + index) ++ "\nD=M\n" ++ PUSH_TEMPLATE)
  else if segment = "pointer" then
    some ("// push pointer " ++ intRepr index ++ "\n@" ++ (if index = 0 then "THIS" else "THAT") ++ "\nD=M\n" ++ PUSH_TEMPLATE)
  else Option.none

/-- `CodeWriter._handle_pop` (note: no `constant` branch). -/
def handle_pop (st : CWState) (segment : String) (index : Int) : Option String :=
  if segment = "static" then
    some ("// pop static " ++ intRepr index ++ "\n" ++ POP_TEMPLATE ++ "@" ++ st.current_file ++ "." ++ intRepr index ++ "\nM=D\n")
  else if segment ∈ BASE_SEGMENTS then
    some (pyFormat2 POP_BASE_SEGMENTS_TEMPLATE (intRepr index) ((SEGMENT_MAP segment).getD ""))
  else if segment = "temp" then
    some ("// pop temp " ++ intRepr index ++ "\n" ++ POP_TEMPLATE ++ "@" ++ intRepr (5 + index) ++ "\nM=D\n")
  else if segment = "pointer" then
    some ("// pop pointer " ++ intRepr index ++ "\n" ++ POP_TEMPLATE ++ "@" ++ (if index = 0 then "THIS" else "THAT") ++ "\nM=D\n")
  else Option.none

/-- `CodeWriter.write_push_pop`: any command other than `C_PUSH` is
routed to `_handle_pop`; the generator state is never touched. -/
def write_push_pop (st : CWState) (command : CommandType) (segment : String) (index : Int) :
    CWState × Option String :=
  (st, if command = CommandType.c_push then handle_push st segment index
       else handle_pop st segment index)

/-- Text of `CodeWriter.write_label`. -/
def write_label_text (st : CWState) (label : String) : String :=
  "(" ++ st.function_name ++ "$" ++ label ++ ")\n"

/-- Text of `CodeWriter.write_goto`. -/
def write_goto_text (st : CWState) (label : String) : String :=
  "// goto " ++ label ++ "\n@" ++ st.function_name ++ "$" ++ label ++ "\n0;JMP\n"

/-- Text of `CodeWriter.write_if`. -/
def write_if_text (st : CWState) (label : String) : String :=
  "// if-goto " ++ label ++ "\n" ++ POP_TEMPLATE ++ "@" ++ st.function_name ++ "$" ++ label ++ "\nD;JNE\n"

/-- `CodeWriter.write_function`: sets `function_name`, emits the entry
label, then `n_vars` pushes of constant 0 (each provably `some`, hence
`getD` is exact). -/
def write_function (st : CWState) (fn_name : String) (n_vars : Nat) : CWState × List String :=
  (({ st with function_name := fn_name } : CWState),
   ("(" ++ fn_name ++ ")\n") ::
     List.replicate n_vars
       ((handle_push ({ st with function_name := fn_name }) "constant" 0).getD ""))

/-- Text of `CodeWriter.write_call` given the already-built return label
(the f-string body, indentation included). -/
def write_call_text (fn_name : String) (n_args : Nat) (retLbl : String) : String :=
  "// call " ++ fn_name ++ " " ++ natRepr n_args ++
  "\n        @" ++ retLbl ++
  "\n        D=A\n        " ++ PUSH_TEMPLATE ++
  "\n        @LCL\n        D=M\n        " ++ PUSH_TEMPLATE ++
  "\n        @ARG\n        D=M\n        " ++ PUSH_TEMPLATE ++
  "\n        @THIS\n        D=M\n        " ++ PUSH_TEMPLATE ++
  "\n        @THAT\n        D=M\n        " ++ PUSH_TEMPLATE ++
  "\n        @SP\n        D=M\n        @5\n        D=D-A\n        @" ++ natRepr n_args ++
  "\n        D=D-A\n        @ARG\n        M=D\n        @SP\n        D=M\n        @LCL\n        M=D\n        @" ++ fn_name ++
  "\n        0;JMP\n        (" ++ retLbl ++ ")\n        "

/-- `CodeWriter.write_call`: the return label uses the counter value
*before* the increment. -/
def write_call (st : CWState) (fn_name : String) (n_args : Nat) : CWState × String :=
  (({ st with label_counter := st.label_counter + 1 } : CWState),
   write_call_text fn_name n_args
     ("RETURN_" ++ fn_name ++ "_" ++ natRepr st.label_counter))

/-- Text of `CodeWriter.write_return` (a constant f-string). -/
def write_return_text : String :=
  "// return\n        @LCL\n        D=M\n        @R14\n        M=D\n        @5\n        A=D-A\n        D=M\n        @R15\n        M=D\n        " ++ POP_TEMPLATE ++
  "\n        @ARG\n        A=M\n        M=D\n        D=A+1\n        @SP\n        M=D\n        @R14\n        AM=M-1\n        D=M\n        @THAT\n        M=D\n        @R14\n        AM=M-1\n        D=M\n        @THIS\n        M=D\n        @R14\n        AM=M-1\n        D=M\n        @ARG\n        M=D\n        @R14\n        AM=M-1\n        D=M\n        @LCL\n        M=D\n        @R15\n        A=M\n        0;JMP\n        "

/-- `CodeWriter.write_init`: bootstrap plus a `call Sys.init 0`. -/
def write_init (st : CWState) : CWState × List String :=
  ((write_call st "Sys.init" 0).1, [BOOTSTRAP_CODE, (write_call st "Sys.init" 0).2])

/-- The closed set of `CodeWriter` emission operations. -/
inductive CWOp
  | arith (command : String)
  | pushpop (command : CommandType) (segment : String) (index : Int)
  | wlabel (label : String)
  | wgoto (label : String)
  | wif (label : String)
  | wfunction (fn_name : String) (n_vars : Nat)
  | wcall (fn_name : String) (n_args : Nat)
  | wreturn
deriving DecidableEq

/-- Dispatch of one emission: resulting state and the raw texts passed to
`_write`, in order. -/
def applyCWOp (op : CWOp) (st : CWState) : CWState × List String :=
  match op with
  | .arith c => ((writer_arithmetic st c).1, (writer_arithmetic st c).2.toList)
  | .pushpop c seg i => ((write_push_pop st c seg i).1, (write_push_pop st c seg i).2.toList)
  | .wlabel l => (st, [write_label_text st l])
  | .wgoto l => (st, [write_goto_text st l])
  | .wif l => (st, [write_if_text st l])
  | .wfunction fn k => write_function st fn k
  | .wcall fn n => ((write_call st fn n).1, [(write_call st fn n).2])
  | .wreturn => (st, [write_return_text])

/-- The same dispatch, exposed against a UUID entropy stream: the
`code_writer.py` implementation never draws from it (contrast with the
`main.py` emitters below, which do). -/
def applyCWOpE (op : CWOp) (st : CWState) (uuids : Nat → String) : CWState × List String :=
  applyCWOp op st

/-! ## `main.py` : the monolithic driver and its own `CodeWriter` -/

/-- `main.py` `PUSH_CMD`. -/
def MAIN_PUSH_CMD : String :=
  "\n        @SP\n        A=M\n        M=D\n        @SP\n        M=M+1\n        "

/-- `main.py` `POP_CMD`. -/
def MAIN_POP_CMD : String := "\n        @SP\n        AM=M-1\n        D=M\n        "

/-- `main.py` `INITIAL_CODE` (the bootstrap: stack pointer := 256). -/
def INITIAL_CODE : String := "\n        @256\n        D=A\n        @SP\n        M=D\n        "

/-- `main.py` `ARITHMETIC_VM_ASM_MAP` (uuid placeholders `JUMP_UQ` /
`CONTINUE_UQ` still in place). -/
def ARITHMETIC_VM_ASM_MAP (s : String) : Option String :=
  if s = "add" then some "\n        @SP\n        AM=M-1\n        D=M\n        A=A-1\n        M=D+M"
  else if s = "sub" then some "\n        @SP\n        AM=M-1\n        D=M\n        A=A-1\n        M=M-D"
  else if s = "neg" then some "\n        @SP\n        A=M-1\n        M=-M"
  else if s = "eq" then some "\n        @SP\n        AM=M-1\n        D=M\n        A=A-1\n        D=M-D\n        @JUMP_UQ\n        D;JEQ\n        @SP\n        A=M-1\n        M=0\n        @CONTINUE_UQ\n        0;JMP\n    (JUMP_UQ)\n        @SP\n        A=M-1\n        M=-1\n    (CONTINUE_UQ)"
  else if s = "gt" then some "\n        @SP\n        AM=M-1\n        D=M\n        A=A-1\n        D=M-D\n        @JUMP_UQ\n        D;JGT\n        @SP\n        A=M-1\n        M=0\n        @CONTINUE_UQ\n        0;JMP\n    (JUMP_UQ)\n        @SP\n        A=M-1\n        M=-1\n    (CONTINUE_UQ)"
  else if s = "lt" then some "\n        @SP\n        AM=M-1\n        D=M\n        A=A-1\n        D=M-D\n        @JUMP_UQ\n        D;JLT\n        @SP\n        A=M-1\n        M=0\n        @CONTINUE_UQ\n        0;JMP\n    (JUMP_UQ)\n        @SP\n        A=M-1\n        M=-1\n    (CONTINUE_UQ)\n        "
  else if s = "and" then some "\n        @SP\n        AM=M-1\n        D=M\n        A=A-1\n        M=D&M\n        "
  else if s = "or" then some "\n        @SP\n        AM=M-1\n        D=M\n        A=A-1\n        M=D|M\n        "
  else if s = "not" then some "\n        @SP\n        A=M-1\n        M=!M\n        "
  else Option.none

/-- `main.py` `CodeWriter.writer_arithmetic`: the label ids are the two
freshly drawn UUID hex strings (`uuid1`/`uuid4` with dashes removed),
which are inputs of the emission, not part of the generator state. -/
def main_writer_arithmetic_text (command jumpId continueId : String) : Option String :=
  (ARITHMETIC_VM_ASM_MAP command).map fun asm0 =>
    "\n//" ++ command ++
      replaceAllStr (replaceAllStr asm0 "JUMP_UQ" ("JUMP" ++ jumpId))
        "CONTINUE_UQ" ("CONTINUE" ++ continueId)

/-- `main.py` `CodeWriter.write_label`: the emitted symbol is the raw
label text, with no function-name scoping. -/
def main_write_label_text (command : String) : String :=
  "\n// label " ++ command ++ "\n" ++ "(" ++ command ++ ")"

/-- `main.py` `CodeWriter.write_goto` (also unscoped). -/
def main_write_goto_text (command : String) : String :=
  "\n// goto " ++ command ++ "\n        @" ++ command ++ "\n        0;JMP\n        "

/-- `main.py` `CodeWriter.write_call`: the three chunks written, with
`u` the freshly drawn uuid4 hex string. -/
def main_write_call_chunks (fn_name : String) (n_args : Nat) (u : String) : List String :=
  ["\n        //call " ++ fn_name ++ " " ++ natRepr n_args ++
     "\n        @return_add_" ++ fn_name ++ "_" ++ u ++
     "\n        D=A\n        " ++ MAIN_PUSH_CMD ++
     "\n        @LCL\n        D=M\n        " ++ MAIN_PUSH_CMD ++
     "\n        @ARG\n        D=M\n        " ++ MAIN_PUSH_CMD ++
     "\n        @THIS\n        D=M\n        " ++ MAIN_PUSH_CMD ++
     "\n        @THAT\n        D=M\n        " ++ MAIN_PUSH_CMD,
   "\n        @SP\n        D=M\n        @5\n        D=D-A\n        @" ++ natRepr n_args ++
     "\n        D=D-A\n        @ARG\n        M=D\n        ",
   "\n        //LCL\n        @SP\n        D=M\n        @LCL\n        M=D\n        //goto\n        @" ++ fn_name ++
     "\n        0;JMP\n        (return_add_" ++ fn_name ++ "_" ++ u ++ ")\n        "]

/-- Output chunks of `main.py` `CodeWriter.__enter__`: `INITIAL_CODE`
followed by the chunks of `write_call("Sys.init", 0)`.  `u` is the uuid
drawn inside that call. -/
def mainCodeWriterEnterChunks (u : String) : List String :=
  INITIAL_CODE :: main_write_call_chunks "Sys.init" 0 u

/-- Output chunks of one `main()` run: both the `is_file` and the
`is_dir` branch enter `CodeWriter` with `with ... as code_writer`, so
`__enter__` writes the bootstrap before the translation loop emits
`userChunks`; neither the build mode nor the presence of a `Sys.vm`
module is consulted. -/
def mainRunChunks (isDir hasSysVm : Bool) (u : String) (userChunks : List String) : List String :=
  mainCodeWriterEnterChunks u ++ userChunks

/-! ## A small Hack machine

Values are signed integers; every ALU result is normalised to
`[-32768, 32767]` by `wnorm`.  `M`-writes go to `ram` at the value of
the `A` register *before* the instruction (the Hack CPU presents the
address during the cycle).  Only the comp/dest/jump forms that the
transcribed programs use are included. -/

/-- Normalise to 16-bit two's complement. -/
def wnorm (x : Int) : Int := (x + 32768) % 65536 - 32768

/-- Symbols of A-instructions: numeric constants, the predefined Hack
registers, and assembler-resolved names (labels, function entry points). -/
inductive Symb
  | sNum (n : Nat)
  | sSP
  | sLCL
  | sARG
  | sTHIS
  | sTHAT
  | sR13
  | sR14
  | sR15
  | sName (s : String)
deriving DecidableEq

/-- Value of a symbol, with `ρ` the assembler's resolution of free names. -/
def symValue (ρ : String → Int) : Symb → Int
  | .sNum n => (n : Int)
  | .sSP => 0
  | .sLCL => 1
  | .sARG => 2
  | .sTHIS => 3
  | .sTHAT => 4
  | .sR13 => 13
  | .sR14 => 14
  | .sR15 => 15
  | .sName s => ρ s

/-- ALU comp fields used by the generator's output. -/
inductive Comp
  | c0
  | cNeg1
  | cA
  | cD
  | cM
  | cAsub1
  | cAadd1
  | cMsub1
  | cMadd1
  | cMsubD
  | cDsubA
deriving DecidableEq

/-- Destination fields used by the generator's output. -/
inductive DestK
  | dNone
  | dA
  | dD
  | dM
  | dAM
deriving DecidableEq

/-- Jump fields used by the generator's output. -/
inductive JumpK
  | jNone
  | jJMP
  | jJEQ
  | jJGT
  | jJLT
  | jJNE
deriving DecidableEq

/-- A Hack instruction; `lbl` is the `(L)` pseudo-instruction. -/
inductive Instr
  | ai (s : Symb)
  | ci (d : DestK) (c : Comp) (j : JumpK)
  | lbl (s : String)
deriving DecidableEq

/-- Machine state: the two registers and the RAM. -/
structure Mach where
  A : Int
  D : Int
  ram : Int → Int

/-- Value computed by a comp field.  Register/memory transfers copy the
stored word unchanged; arithmetic results are normalised. -/
def compValue (c : Comp) (m : Mach) : Int :=
  match c with
  | .c0 => 0
  | .cNeg1 => -1
  | .cA => m.A
  | .cD => m.D
  | .cM => m.ram m.A
  | .cAsub1 => wnorm (m.A - 1)
  | .cAadd1 => wnorm (m.A + 1)
  | .cMsub1 => wnorm (m.ram m.A - 1)
  | .cMadd1 => wnorm (m.ram m.A + 1)
  | .cMsubD => wnorm (m.ram m.A - m.D)
  | .cDsubA => wnorm (m.D - m.A)

/-- Write the computed value to the destination registers/memory; the
memory address is the pre-instruction `A`. -/
def applyDest (d : DestK) (v : Int) (m : Mach) : Mach :=
  match d with
  | .dNone => m
  | .dA => { m with A := v }
  | .dD => { m with D := v }
  | .dM => { m with ram := Function.update m.ram m.A v }
  | .dAM => { A := v, D := m.D, ram := Function.update m.ram m.A v }

/-- Data effect of one instruction (jumps transfer control only and do
not change registers or memory). -/
def stepData (ρ : String → Int) (m : Mach) (i : Instr) : Mach :=
  match i with
  | .ai s => { m with A := symValue ρ s }
  | .ci d c _ => applyDest d (compValue c m) m
  | .lbl _ => m

/-- Run a straight-line instruction block in order.  This matches the
jump-aware semantics for blocks whose only jumps are final unconditional
transfers out of the block (the call/return/push blocks below). -/
def execStraight (ρ : String → Int) (prog : List Instr) (m : Mach) : Mach :=
  prog.foldl (stepData ρ) m

/-- Hack jump condition on the ALU output. -/
def jumpTaken (j : JumpK) (v : Int) : Bool :=
  match j with
  | .jNone => false
  | .jJMP => true
  | .jJEQ => decide (v = 0)
  | .jJGT => decide (0 < v)
  | .jJLT => decide (v < 0)
  | .jJNE => decide (v ≠ 0)

/-- Does this instruction define label `s`? -/
def isLblNamed (s : String) : Instr → Bool
  | .lbl t => t == s
  | _ => false

/-- Position a label symbol resolves to.  Keeping `(L)` pseudo-instructions
as in-list no-ops and resolving `@L` to the label's own index is
equivalent to the assembler's ROM-address resolution for execution
purposes. -/
def labelPos (prog : List Instr) (s : String) : Nat :=
  prog.findIdx (isLblNamed s)

/-- Fuelled interpreter with jumps; label references resolve within
`prog`. -/
def runProg (prog : List Instr) : Nat → Mach → Nat → Mach
  | 0, m, _ => m
  | fuel + 1, m, pc =>
    match prog[pc]? with
    | Option.none => m
    | some (.lbl _) => runProg prog fuel m (pc + 1)
    | some (.ai s) =>
      runProg prog fuel
        ({ m with A := symValue (fun t => (labelPos prog t : Int)) s }) (pc + 1)
    | some (.ci d c j) =>
      if jumpTaken j (compValue c m) then
        runProg prog fuel (applyDest d (compValue c m) m) m.A.toNat
      else
        runProg prog fuel (applyDest d (compValue c m) m) (pc + 1)

/-! ## The emitted programs, transcribed -/

/-- `PUSH_TEMPLATE` as instructions. -/
def pushTemplateProg : List Instr :=
  [.ai .sSP, .ci .dA .cM .jNone, .ci .dM .cD .jNone, .ai .sSP, .ci .dM .cMadd1 .jNone]

/-- The three comparison operators of `writer_arithmetic`. -/
inductive CmpOp
  | ceq
  | cgt
  | clt
deriving DecidableEq

/-- VM name of a comparison operator. -/
def cmpName : CmpOp → String
  | .ceq => "eq"
  | .cgt => "gt"
  | .clt => "lt"

/-- Jump field a comparison template uses. -/
def cmpJump : CmpOp → JumpK
  | .ceq => .jJEQ
  | .cgt => .jJGT
  | .clt => .jJLT

/-- The mathematical relation a comparison operator denotes, applied to
the first-pushed value `a` and the second-pushed value `b`. -/
def cmpRel (op : CmpOp) (a b : Int) : Prop :=
  match op with
  | .ceq => a = b
  | .cgt => b < a
  | .clt => a < b

instance (op : CmpOp) (a b : Int) : Decidable (cmpRel op a b) :=
  match op with
  | .ceq => inferInstanceAs (Decidable (a = b))
  | .cgt => inferInstanceAs (Decidable (b < a))
  | .clt => inferInstanceAs (Decidable (a < b))

/-- `ARITHMETIC_TEMPLATES[op].format(k)` as instructions (the assembly
`writer_arithmetic` emits for `eq`/`gt`/`lt` with counter value `k`). -/
def cmpProg (op : CmpOp) (k : Nat) : List Instr :=
  [.ai .sSP, .ci .dAM .cMsub1 .jNone, .ci .dD .cM .jNone, .ci .dA .cAsub1 .jNone,
   .ci .dD .cMsubD .jNone,
   .ai (.sName ("JUMP_" ++ natRepr k)), .ci .dNone .cD (cmpJump op),
   .ai .sSP, .ci .dA .cMsub1 .jNone, .ci .dM .c0 .jNone,
   .ai (.sName ("CONTINUE_" ++ natRepr k)), .ci .dNone .c0 .jJMP,
   .lbl ("JUMP_" ++ natRepr k),
   .ai .sSP, .ci .dA .cMsub1 .jNone, .ci .dM .cNeg1 .jNone,
   .lbl ("CONTINUE_" ++ natRepr k)]

/-- The assembly of `write_call fn n` (counter value `k`) as
instructions. -/
def callProg (fn : String) (k : Nat) (nArgs : Nat) : List Instr :=
  [.ai (.sName ("RETURN_" ++ fn ++ "_" ++ natRepr k)), .ci .dD .cA .jNone] ++
  pushTemplateProg ++
  [.ai .sLCL, .ci .dD .cM .jNone] ++ pushTemplateProg ++
  [.ai .sARG, .ci .dD .cM .jNone] ++ pushTemplateProg ++
  [.ai .sTHIS, .ci .dD .cM .jNone] ++ pushTemplateProg ++
  [.ai .sTHAT, .ci .dD .cM .jNone] ++ pushTemplateProg ++
  [.ai .sSP, .ci .dD .cM .jNone, .ai (.sNum 5), .ci .dD .cDsubA .jNone,
   .ai (.sNum nArgs), .ci .dD .cDsubA .jNone, .ai .sARG, .ci .dM .cD .jNone,
   .ai .sSP, .ci .dD .cM .jNone, .ai .sLCL, .ci .dM .cD .jNone,
   .ai (.sName fn), .ci .dNone .c0 .jJMP,
   .lbl ("RETURN_" ++ fn ++ "_" ++ natRepr k)]

/-- The assembly of `write_return` as instructions. -/
def returnProg : List Instr :=
  [.ai .sLCL, .ci .dD .cM .jNone, .ai .sR14, .ci .dM .cD .jNone,
   .ai (.sNum 5), .ci .dA .cDsubA .jNone, .ci .dD .cM .jNone,
   .ai .sR15, .ci .dM .cD .jNone,
   .ai .sSP, .ci .dAM .cMsub1 .jNone, .ci .dD .cM .jNone,
   .ai .sARG, .ci .dA .cM .jNone, .ci .dM .cD .jNone,
   .ci .dD .cAadd1 .jNone, .ai .sSP, .ci .dM .cD .jNone,
   .ai .sR14, .ci .dAM .cMsub1 .jNone, .ci .dD .cM .jNone, .ai .sTHAT, .ci .dM .cD .jNone,
   .ai .sR14, .ci .dAM .cMsub1 .jNone, .ci .dD .cM .jNone, .ai .sTHIS, .ci .dM .cD .jNone,
   .ai .sR14, .ci .dAM .cMsub1 .jNone, .ci .dD .cM .jNone, .ai .sARG, .ci .dM .cD .jNone,
   .ai .sR14, .ci .dAM .cMsub1 .jNone, .ci .dD .cM .jNone, .ai .sLCL, .ci .dM .cD .jNone,
   .ai .sR15, .ci .dA .cM .jNone, .ci .dNone .c0 .jJMP]

/-- The assembly of `push constant r` as instructions (the minimal
callee body producing one return value). -/
def pushConstProg (r : Nat) : List Instr :=
  [.ai (.sNum r), .ci .dD .cA .jNone] ++ pushTemplateProg

/-! ## Rendering (for checking the transcriptions against the templates) -/

/-- Assembly text of a symbol. -/
def renderSymb : Symb → String
  | .sNum n => natRepr n
  | .sSP => "SP"
  | .sLCL => "LCL"
  | .sARG => "ARG"
  | .sTHIS => "THIS"
  | .sTHAT => "THAT"
  | .sR13 => "R13"
  | .sR14 => "R14"
  | .sR15 => "R15"
  | .sName s => s

/-- Assembly text of a dest field. -/
def renderDest : DestK → String
  | .dNone => ""
  | .dA => "A="
  | .dD => "D="
  | .dM => "M="
  | .dAM => "AM="

/-- Assembly text of a comp field. -/
def renderComp : Comp → String
  | .c0 => "0"
  | .cNeg1 => "-1"
  | .cA => "A"
  | .cD => "D"
  | .cM => "M"
  | .cAsub1 => "A-1"
  | .cAadd1 => "A+1"
  | .cMsub1 => "M-1"
  | .cMadd1 => "M+1"
  | .cMsubD => "M-D"
  | .cDsubA => "D-A"

/-- Assembly text of a jump field. -/
def renderJump : JumpK → String
  | .jNone => ""
  | .jJMP => ";JMP"
  | .jJEQ => ";JEQ"
  | .jJGT => ";JGT"
  | .jJLT => ";JLT"
  | .jJNE => ";JNE"

/-- Assembly text of an instruction. -/
def renderInstr : Instr → String
  | .ai s => "@" ++ renderSymb s
  | .ci d c j => renderDest d ++ renderComp c ++ renderJump j
  | .lbl s => "(" ++ s ++ ")"

/-- Split at newlines (worker). -/
def linesAux : List Char → List Char → List (List Char)
  | [], acc => [acc.reverse]
  | ch :: rest, acc =>
    if ch = '\n' then acc.reverse :: linesAux rest [] else linesAux rest (ch :: acc)

/-- The instruction lines of an emitted text: split at newlines, strip
each line, drop blanks and `//` comment lines. -/
def asmLines (s : String) : List String :=
  ((linesAux s.data []).map (fun l => (⟨stripChars l⟩ : String))).filter
    (fun t => !(t == "") && !(List.isPrefixOf ("//".data) t.data))

/-! ## Label-emission model for the uniqueness claim

Exactly the comparison and call emissions touch `label_counter`
(both advance it by one per emission); a comparison defines
`JUMP_k`/`CONTINUE_k` with `k` the *post*-increment value, a call
defines `RETURN_<fn>_<k>` with `k` the *pre*-increment value. -/

/-- One label-producing emission. -/
inductive GenEvent
  | cmp
  | call (fn : String)
deriving DecidableEq

/-- Label symbols defined by one emission at counter value `c`. -/
def eventLabels : GenEvent → Nat → List String
  | .cmp, c => ["JUMP_" ++ natRepr (c + 1), "CONTINUE_" ++ natRepr (c + 1)]
  | .call fn, c => ["RETURN_" ++ fn ++ "_" ++ natRepr c]

/-- All label symbols defined by a run of emissions starting at counter
value `c`. -/
def runLabels : List GenEvent → Nat → List String
  | [], _ => []
  | e :: es, c => eventLabels e c ++ runLabels es (c + 1)

/-- The `<function>$<label>` symbol of the flow-control writers. -/
def labelSym (fn l : String) : String := fn ++ "$" ++ l

/-- A concrete two-value stack image (stack origin 256, `a` pushed
first, `b` pushed second, stack pointer 258) for concrete runs. -/
def ramCmpTest (a b : Int) : Int → Int :=
  fun x => if x = 0 then 258 else if x = 256 then a else if x = 257 then b else 0

/-- A concrete register file for a concrete call/return run: stack
pointer 300, caller base pointers 11/12/13/14, empty stack. -/
def ramC2Test : Int → Int :=
  fun x => if x = 0 then 300 else if x = 1 then 11 else if x = 2 then 12
    else if x = 3 then 13 else if x = 4 then 14 else 0

/-- Kinds of emission a `main.py` run performs, in order: `__enter__`
writes the stack-pointer bootstrap, then the `call Sys.init 0` code,
then the translation loop emits one chunk group per user command. -/
inductive EmitKind
  | bootstrapSp
  | sysInitCall
  | user
deriving DecidableEq

/-- Emission kinds of one `main()` run (either branch): the bootstrap
happens once, first, regardless of the build mode or of an entry
module's presence. -/
def mainRunKinds (isDir hasSysVm : Bool) (nUser : Nat) : List EmitKind :=
  EmitKind.bootstrapSp :: EmitKind.sysInitCall :: List.replicate nUser EmitKind.user

/-! # Theorems

First the easy structural claims about the string-level generator, then
the machine-level executions, then the label-uniqueness development. -/

/-- C7: `current_function` (`function_name`) changes only on a
function-declaration emission; every other emission operation — in
particular `write_return` — leaves it unchanged. -/
theorem C7_current_function_frame (op : CWOp) (st : CWState)
    (h : ∀ fn k, op ≠ CWOp.wfunction fn k) :
    (applyCWOp op st).1.function_name = st.function_name := by
  cases op with
  | arith c =>
    simp only [applyCWOp, writer_arithmetic]
    split <;> rfl
  | pushpop c seg i => rfl
  | wlabel l => rfl
  | wgoto l => rfl
  | wif l => rfl
  | wfunction fn k => exact absurd rfl (h fn k)
  | wcall fn n => rfl
  | wreturn => rfl

/-- Witness for `C7_current_function_frame`: a `return` emission from a
concrete state keeps the (empty) function name. -/
theorem C7_witness :
    (applyCWOp CWOp.wreturn ⟨0, "Foo", "Foo.bar"⟩).1.function_name = "Foo.bar" :=
  C7_current_function_frame CWOp.wreturn ⟨0, "Foo", "Foo.bar"⟩
    (fun _ _ h => CWOp.noConfusion h)

/-- C9: push/pop on segment `pointer` emit code targeting `THIS` exactly
when the index is 0 and `THAT` for every other index (negative or
out-of-range included); no index is rejected. -/
theorem C9_pointer_this_that (st : CWState) (i : Int) :
    handle_push st "pointer" i =
      some ("// push pointer " ++ intRepr i ++ "\n@" ++
        (if i = 0 then "THIS" else "THAT") ++ "\nD=M\n" ++ PUSH_TEMPLATE) ∧
    handle_pop st "pointer" i =
      some ("// pop pointer " ++ intRepr i ++ "\n" ++ POP_TEMPLATE ++ "@" ++
        (if i = 0 then "THIS" else "THAT") ++ "\nM=D\n") ∧
    ((if i = 0 then "THIS" else ("THAT" : String)) = "THIS" ↔ i = 0) ∧
    ((if i = 0 then "THIS" else ("THAT" : String)) = "THAT" ↔ i ≠ 0) := by
  refine ⟨rfl, rfl, ?_, ?_⟩
  · by_cases h : i = 0 <;> simp [h]
  · by_cases h : i = 0 <;> simp [h]

/-- C10: a push/pop whose segment is outside the eight known segments
writes nothing and leaves the generator state unchanged; popping the
push-only segment `constant` is likewise a silent no-op. -/
theorem C10_unknown_segment_noop (st : CWState) (cmd : CommandType) (seg : String) (i : Int) :
    (seg ∉ (["constant", "static", "local", "argument", "this", "that", "temp",
        "pointer"] : List String) →
      write_push_pop st cmd seg i = (st, Option.none)) ∧
    (cmd ≠ CommandType.c_push → write_push_pop st cmd "constant" i = (st, Option.none)) := by
  constructor
  · intro h
    simp only [List.mem_cons, List.not_mem_nil, or_false, not_or] at h
    obtain ⟨h1, h2, h3, h4, h5, h6, h7, h8⟩ := h
    simp [write_push_pop, handle_push, handle_pop, BASE_SEGMENTS,
      h1, h2, h3, h4, h5, h6, h7, h8]
  · intro h
    simp only [write_push_pop, if_neg h]
    rfl

/-- Witness for `C10_unknown_segment_noop`: pushing to the unknown
segment `"bogus"` emits nothing. -/
theorem C10_witness :
    write_push_pop ⟨0, "Mod", "f"⟩ CommandType.c_push "bogus" 3 = (⟨0, "Mod", "f"⟩, Option.none) :=
  (C10_unknown_segment_noop ⟨0, "Mod", "f"⟩ CommandType.c_push "bogus" 3).1 (by decide)

/-- C8 (counterexample): the two-token line `push constant` has the
wrong token count for a push, yet classification succeeds (no failure is
signalled) — the classifier never counts tokens. -/
theorem C8_counterexample : command_type "push constant" = some CommandType.c_push := by
  decide

/-- C8 (amended): classification fails exactly when the first token is
neither an arithmetic/logical operator name nor a known command name;
the remaining tokens (hence the token count) are never consulted. -/
theorem C8_first_token_only (line : String) (c : String) (rest : List String)
    (htok : pyTokens line = c :: rest) :
    command_type line = Option.none ↔
      (c ∉ ARITHMETIC_COMMANDS ∧ COMMAND_TYPE_MAP c = Option.none) := by
  simp only [command_type, htok]
  by_cases h : c ∈ ARITHMETIC_COMMANDS
  · simp [h]
  · simp [h]

/-- Witness for `C8_first_token_only`: the unknown first token `zork`
classifies to a failure. -/
theorem C8_witness : command_type "zork 1 2" = Option.none :=
  (C8_first_token_only "zork 1 2" "zork" ["1", "2"] (by decide)).mpr
    ⟨by decide, by decide⟩

/-- C6 (counterexample): `main.py`'s `write_label` emits the raw label
text as the symbol — for the concrete input `LOOP` the emitted assembly
is `(LOOP)` with no `$`-scoped symbol at all, so the symbol is not
`<current_function>$LOOP`. -/
theorem C6_counterexample :
    main_write_label_text "LOOP" = "\n// label LOOP\n(LOOP)" ∧
    ¬ '$' ∈ (main_write_label_text "LOOP").data := by
  decide

/-- Right cancellation for string concatenation. -/
theorem string_append_right_cancel (a b c : String) (h : a ++ c = b ++ c) : a = b := by
  apply String.ext
  have hd := congrArg String.data h
  rw [String.data_append, String.data_append] at hd
  exact List.append_cancel_right hd

/-- C6 (amended): the `code_writer.py` flow-control writers scope the
symbol as `<function_name>$<label>`, and that scoping separates any two
distinct functions reusing the same label text; `main.py`'s writers emit
the unscoped label instead. -/
theorem C6_label_scoping (st : CWState) (l : String) :
    write_label_text st l = "(" ++ labelSym st.function_name l ++ ")\n" ∧
    write_goto_text st l =
      "// goto " ++ l ++ "\n@" ++ labelSym st.function_name l ++ "\n0;JMP\n" ∧
    write_if_text st l =
      "// if-goto " ++ l ++ "\n" ++ POP_TEMPLATE ++ "@" ++
        labelSym st.function_name l ++ "\nD;JNE\n" ∧
    (∀ f g l2 : String, f ≠ g → labelSym f l2 ≠ labelSym g l2) := by
  refine ⟨?_, ?_, ?_, ?_⟩
  · simp [write_label_text, labelSym, String.append_assoc]
  · simp [write_goto_text, labelSym, String.append_assoc]
  · simp [write_if_text, labelSym, String.append_assoc]
  · intro f g l2 hfg heq
    exact hfg (string_append_right_cancel f g "$"
      (string_append_right_cancel (f ++ "$") (g ++ "$") l2 heq))

/-- Witness for `C6_label_scoping`: concrete instance plus the
distinctness of the scoped symbols of two functions sharing `LOOP`. -/
theorem C6_witness :
    write_label_text ⟨0, "Mod", "Foo.bar"⟩ "LOOP" =
      "(" ++ labelSym "Foo.bar" "LOOP" ++ ")\n" ∧
    labelSym "Foo.a" "LOOP" ≠ labelSym "Foo.b" "LOOP" :=
  ⟨(C6_label_scoping ⟨0, "Mod", "Foo.bar"⟩ "LOOP").1,
   (C6_label_scoping ⟨0, "Mod", "Foo.bar"⟩ "LOOP").2.2.2 "Foo.a" "Foo.b" "LOOP" (by decide)⟩

/-- C5 (counterexample): `main.py`'s `writer_arithmetic` output depends
on the freshly drawn UUID label ids: two invocations for the same
command `eq` (same generator state) with different draws give different
text — emission is not a function of the explicit state and command. -/
theorem C5_counterexample :
    main_writer_arithmetic_text "eq" "1a" "2b" ≠ main_writer_arithmetic_text "eq" "3c" "4d" := by
  decide

/-- C5 (amended): every `code_writer.py` emission is independent of the
UUID entropy stream (it is a pure function of state and command), while
`main.py`'s comparison emission does vary with the drawn UUIDs. -/
theorem C5_determinism (op : CWOp) (st : CWState) (e1 e2 : Nat → String) :
    applyCWOpE op st e1 = applyCWOpE op st e2 ∧
    ∃ u1 v1 u2 v2 : String,
      main_writer_arithmetic_text "eq" u1 v1 ≠ main_writer_arithmetic_text "eq" u2 v2 :=
  ⟨rfl, "a", "b", "c", "d", by decide⟩

/-- C4 (counterexample): a single-file build (`is_file` branch, no entry
module anywhere) still emits the bootstrap: the very first chunk written
is `INITIAL_CODE`, and it occurs in the run's output. -/
theorem C4_counterexample :
    (mainRunChunks false false "deadbeef" []).head? = some INITIAL_CODE ∧
    (mainRunChunks false false "deadbeef" []).count INITIAL_CODE = 1 := by
  decide

/-- C4 (amended): `main.py` emits the bootstrap unconditionally —
exactly once, before any user command, in every build, single-file or
directory, with or without `Sys.vm`; the run output is the `__enter__`
chunks followed by the user chunks. -/
theorem C4_bootstrap_unconditional (isDir hasSysVm : Bool) (u : String)
    (userChunks : List String) (nUser : Nat) :
    mainRunChunks isDir hasSysVm u userChunks = mainCodeWriterEnterChunks u ++ userChunks ∧
    (mainRunChunks isDir hasSysVm u userChunks).head? = some INITIAL_CODE ∧
    (mainRunKinds isDir hasSysVm nUser).head? = some EmitKind.bootstrapSp ∧
    (mainRunKinds isDir hasSysVm nUser).count EmitKind.bootstrapSp = 1 := by
  refine ⟨rfl, rfl, rfl, ?_⟩
  simp [mainRunKinds, List.count_cons, List.count_replicate]

/-- A value already in the signed 16-bit range is fixed by `wnorm`. -/
theorem wnorm_bounded (x : Int) (h1 : -32768 ≤ x) (h2 : x ≤ 32767) : wnorm x = x := by
  unfold wnorm; omega

/-- For differences of two in-range words, `wnorm` vanishes only at 0. -/
theorem wnorm_eq_zero_iff (x : Int) (h1 : -65535 ≤ x) (h2 : x ≤ 65535) : wnorm x = 0 ↔ x = 0 := by
  unfold wnorm; omega

/-- The two label families of a comparison template never collide
(their first characters differ). -/
theorem jump_ne_continue (x y : String) : ("JUMP_" ++ x) ≠ ("CONTINUE_" ++ y) := by
  intro h
  have hd := congrArg String.data h
  rw [String.data_append, String.data_append,
    show "JUMP_".data = ['J', 'U', 'M', 'P', '_'] from rfl,
    show "CONTINUE_".data = ['C', 'O', 'N', 'T', 'I', 'N', 'U', 'E', '_'] from rfl] at hd
  simp at hd

/-- One interpreter step: an A-instruction loads the symbol value. -/
theorem runProg_step_ai (prog : List Instr) (fuel fuel' : Nat) (m : Mach) (pc : Nat)
    (s : Symb) (m' : Mach) (hf : fuel = fuel' + 1) (h : prog[pc]? = some (Instr.ai s))
    (hm : m' = { m with A := symValue (fun t => (labelPos prog t : Int)) s }) :
    runProg prog fuel m pc = runProg prog fuel' m' (pc + 1) := by
  subst hf; subst hm; simp [runProg, h]

/-- One interpreter step: a compute instruction whose jump is not taken. -/
theorem runProg_step_ciCont (prog : List Instr) (fuel fuel' : Nat) (m : Mach) (pc : Nat)
    (d : DestK) (c : Comp) (j : JumpK) (m' : Mach) (hf : fuel = fuel' + 1)
    (h : prog[pc]? = some (Instr.ci d c j))
    (hj : jumpTaken j (compValue c m) = false)
    (hm : m' = applyDest d (compValue c m) m) :
    runProg prog fuel m pc = runProg prog fuel' m' (pc + 1) := by
  subst hf; subst hm; simp [runProg, h, hj]

/-- One interpreter step: a compute instruction whose jump is taken
(the target is the pre-instruction `A`). -/
theorem runProg_step_ciJump (prog : List Instr) (fuel fuel' : Nat) (m : Mach) (pc : Nat)
    (d : DestK) (c : Comp) (j : JumpK) (m' : Mach) (pc' : Nat) (hf : fuel = fuel' + 1)
    (h : prog[pc]? = some (Instr.ci d c j))
    (hj : jumpTaken j (compValue c m) = true)
    (hm : m' = applyDest d (compValue c m) m) (hpc : pc' = m.A.toNat) :
    runProg prog fuel m pc = runProg prog fuel' m' pc' := by
  subst hf; subst hm; subst hpc; simp [runProg, h, hj]

/-- One interpreter step: a label pseudo-instruction is skipped. -/
theorem runProg_step_lbl (prog : List Instr) (fuel fuel' : Nat) (m : Mach) (pc : Nat)
    (s : String) (hf : fuel = fuel' + 1) (h : prog[pc]? = some (Instr.lbl s)) :
    runProg prog fuel m pc = runProg prog fuel' m (pc + 1) := by
  subst hf; simp [runProg, h]

/-- The interpreter halts when the pc leaves the program. -/
theorem runProg_halt_none (prog : List Instr) (fuel fuel' : Nat) (m : Mach) (pc : Nat)
    (hf : fuel = fuel' + 1) (h : prog[pc]? = Option.none) :
    runProg prog fuel m pc = m := by
  subst hf; simp [runProg, h]

/-- Execution of an emitted comparison when the branch is taken: the
stack pointer drops by one and the result cell receives all-ones. -/
theorem cmpProg_exec_taken (op : CmpOp) (k : Nat) (a b sp a0 d0 : Int) (ram : Int → Int)
    (hr0 : ram 0 = sp) (hra : ram (sp - 2) = a) (hrb : ram (sp - 1) = b)
    (hsp1 : 16 ≤ sp) (hsp2 : sp ≤ 32767)
    (hcond : jumpTaken (cmpJump op) (wnorm (a - b)) = true) :
    runProg (cmpProg op k) 32 ⟨a0, d0, ram⟩ 0 =
      ⟨sp - 2, wnorm (a - b),
        Function.update (Function.update ram 0 (sp - 1)) (sp - 2) (-1)⟩ := by
  have hJC : (("JUMP_" ++ natRepr k) == ("CONTINUE_" ++ natRepr k)) = false :=
    beq_eq_false_iff_ne.mpr (jump_ne_continue _ _)
  have hidx : sp - 1 - 1 = sp - 2 := by ring
  have e0 : (cmpProg op k)[0]? = some (.ai .sSP) := rfl
  have e1 : (cmpProg op k)[1]? = some (.ci .dAM .cMsub1 .jNone) := rfl
  have e2 : (cmpProg op k)[2]? = some (.ci .dD .cM .jNone) := rfl
  have e3 : (cmpProg op k)[3]? = some (.ci .dA .cAsub1 .jNone) := rfl
  have e4 : (cmpProg op k)[4]? = some (.ci .dD .cMsubD .jNone) := rfl
  have e5 : (cmpProg op k)[5]? = some (.ai (.sName ("JUMP_" ++ natRepr k))) := rfl
  have e6 : (cmpProg op k)[6]? = some (.ci .dNone .cD (cmpJump op)) := rfl
  have e12 : (cmpProg op k)[12]? = some (.lbl ("JUMP_" ++ natRepr k)) := rfl
  have e13 : (cmpProg op k)[13]? = some (.ai .sSP) := rfl
  have e14 : (cmpProg op k)[14]? = some (.ci .dA .cMsub1 .jNone) := rfl
  have e15 : (cmpProg op k)[15]? = some (.ci .dM .cNeg1 .jNone) := rfl
  have e16 : (cmpProg op k)[16]? = some (.lbl ("CONTINUE_" ++ natRepr k)) := rfl
  have e17 : (cmpProg op k)[17]? = Option.none := rfl
  have hL1 : labelPos (cmpProg op k) ("JUMP_" ++ natRepr k) = 12 := by
    simp [labelPos, cmpProg, isLblNamed, List.findIdx_cons, hJC]
  refine (runProg_step_ai _ 32 31 _ 0 _ ⟨0, d0, ram⟩ rfl e0 (by simp [symValue])).trans ?_
  refine (runProg_step_ciCont _ 31 30 _ 1 _ _ _
    ⟨sp - 1, d0, Function.update ram 0 (sp - 1)⟩ rfl e1 rfl
    (by simp (disch := omega) [applyDest, compValue, hr0, wnorm_bounded])).trans ?_
  refine (runProg_step_ciCont _ 30 29 _ 2 _ _ _
    ⟨sp - 1, b, Function.update ram 0 (sp - 1)⟩ rfl e2 rfl
    (by simp (disch := omega) [applyDest, compValue, Function.update_noteq, hrb])).trans ?_
  refine (runProg_step_ciCont _ 29 28 _ 3 _ _ _
    ⟨sp - 2, b, Function.update ram 0 (sp - 1)⟩ rfl e3 rfl
    (by simp (disch := omega) [applyDest, compValue, wnorm_bounded, hidx])).trans ?_
  refine (runProg_step_ciCont _ 28 27 _ 4 _ _ _
    ⟨sp - 2, wnorm (a - b), Function.update ram 0 (sp - 1)⟩ rfl e4 rfl
    (by simp (disch := omega) [applyDest, compValue, Function.update_noteq, hra])).trans ?_
  refine (runProg_step_ai _ 27 26 _ 5 _
    ⟨12, wnorm (a - b), Function.update ram 0 (sp - 1)⟩ rfl e5
    (by simp [symValue, hL1])).trans ?_
  refine (runProg_step_ciJump _ 26 25 ⟨12, wnorm (a - b), Function.update ram 0 (sp - 1)⟩ 6 _ _ _
    ⟨12, wnorm (a - b), Function.update ram 0 (sp - 1)⟩ 12 rfl e6
    (by simpa [compValue] using hcond) (by simp [applyDest]) rfl).trans ?_
  refine (runProg_step_lbl _ 25 24 _ 12 _ rfl e12).trans ?_
  refine (runProg_step_ai _ 24 23 _ 13 _
    ⟨0, wnorm (a - b), Function.update ram 0 (sp - 1)⟩ rfl e13 (by simp [symValue])).trans ?_
  refine (runProg_step_ciCont _ 23 22 _ 14 _ _ _
    ⟨sp - 2, wnorm (a - b), Function.update ram 0 (sp - 1)⟩ rfl e14 rfl
    (by simp (disch := omega) [applyDest, compValue, Function.update_same, wnorm_bounded, hidx])).trans ?_
  refine (runProg_step_ciCont _ 22 21 _ 15 _ _ _
    ⟨sp - 2, wnorm (a - b),
      Function.update (Function.update ram 0 (sp - 1)) (sp - 2) (-1)⟩ rfl e15 rfl
    (by simp [applyDest, compValue])).trans ?_
  refine (runProg_step_lbl _ 21 20 _ 16 _ rfl e16).trans ?_
  exact runProg_halt_none _ 20 19 _ 17 rfl e17

/-- Execution of an emitted comparison when the branch falls through:
the stack pointer drops by one and the result cell receives zero. -/
theorem cmpProg_exec_untaken (op : CmpOp) (k : Nat) (a b sp a0 d0 : Int) (ram : Int → Int)
    (hr0 : ram 0 = sp) (hra : ram (sp - 2) = a) (hrb : ram (sp - 1) = b)
    (hsp1 : 16 ≤ sp) (hsp2 : sp ≤ 32767)
    (hcond : jumpTaken (cmpJump op) (wnorm (a - b)) = false) :
    runProg (cmpProg op k) 32 ⟨a0, d0, ram⟩ 0 =
      ⟨16, wnorm (a - b),
        Function.update (Function.update ram 0 (sp - 1)) (sp - 2) 0⟩ := by
  have hJC : (("JUMP_" ++ natRepr k) == ("CONTINUE_" ++ natRepr k)) = false :=
    beq_eq_false_iff_ne.mpr (jump_ne_continue _ _)
  have hidx : sp - 1 - 1 = sp - 2 := by ring
  have e0 : (cmpProg op k)[0]? = some (.ai .sSP) := rfl
  have e1 : (cmpProg op k)[1]? = some (.ci .dAM .cMsub1 .jNone) := rfl
  have e2 : (cmpProg op k)[2]? = some (.ci .dD .cM .jNone) := rfl
  have e3 : (cmpProg op k)[3]? = some (.ci .dA .cAsub1 .jNone) := rfl
  have e4 : (cmpProg op k)[4]? = some (.ci .dD .cMsubD .jNone) := rfl
  have e5 : (cmpProg op k)[5]? = some (.ai (.sName ("JUMP_" ++ natRepr k))) := rfl
  have e6 : (cmpProg op k)[6]? = some (.ci .dNone .cD (cmpJump op)) := rfl
  have e7 : (cmpProg op k)[7]? = some (.ai .sSP) := rfl
  have e8 : (cmpProg op k)[8]? = some (.ci .dA .cMsub1 .jNone) := rfl
  have e9 : (cmpProg op k)[9]? = some (.ci .dM .c0 .jNone) := rfl
  have e10 : (cmpProg op k)[10]? = some (.ai (.sName ("CONTINUE_" ++ natRepr k))) := rfl
  have e11 : (cmpProg op k)[11]? = some (.ci .dNone .c0 .jJMP) := rfl
  have e16 : (cmpProg op k)[16]? = some (.lbl ("CONTINUE_" ++ natRepr k)) := rfl
  have e17 : (cmpProg op k)[17]? = Option.none := rfl
  have hL1 : labelPos (cmpProg op k) ("JUMP_" ++ natRepr k) = 12 := by
    simp [labelPos, cmpProg, isLblNamed, List.findIdx_cons, hJC]
  have hL2 : labelPos (cmpProg op k) ("CONTINUE_" ++ natRepr k) = 16 := by
    simp [labelPos, cmpProg, isLblNamed, List.findIdx_cons, hJC]
  refine (runProg_step_ai _ 32 31 _ 0 _ ⟨0, d0, ram⟩ rfl e0 (by simp [symValue])).trans ?_
  refine (runProg_step_ciCont _ 31 30 _ 1 _ _ _
    ⟨sp - 1, d0, Function.update ram 0 (sp - 1)⟩ rfl e1 rfl
    (by simp (disch := omega) [applyDest, compValue, hr0, wnorm_bounded])).trans ?_
  refine (runProg_step_ciCont _ 30 29 _ 2 _ _ _
    ⟨sp - 1, b, Function.update ram 0 (sp - 1)⟩ rfl e2 rfl
    (by simp (disch := omega) [applyDest, compValue, Function.update_noteq, hrb])).trans ?_
  refine (runProg_step_ciCont _ 29 28 _ 3 _ _ _
    ⟨sp - 2, b, Function.update ram 0 (sp - 1)⟩ rfl e3 rfl
    (by simp (disch := omega) [applyDest, compValue, wnorm_bounded, hidx])).trans ?_
  refine (runProg_step_ciCont _ 28 27 _ 4 _ _ _
    ⟨sp - 2, wnorm (a - b), Function.update ram 0 (sp - 1)⟩ rfl e4 rfl
    (by simp (disch := omega) [applyDest, compValue, Function.update_noteq, hra])).trans ?_
  refine (runProg_step_ai _ 27 26 _ 5 _
    ⟨12, wnorm (a - b), Function.update ram 0 (sp - 1)⟩ rfl e5
    (by simp [symValue, hL1])).trans ?_
  refine (runProg_step_ciCont _ 26 25 _ 6 _ _ _
    ⟨12, wnorm (a - b), Function.update ram 0 (sp - 1)⟩ rfl e6
    (by simpa [compValue] using hcond) (by simp [applyDest])).trans ?_
  refine (runProg_step_ai _ 25 24 _ 7 _
    ⟨0, wnorm (a - b), Function.update ram 0 (sp - 1)⟩ rfl e7 (by simp [symValue])).trans ?_
  refine (runProg_step_ciCont _ 24 23 _ 8 _ _ _
    ⟨sp - 2, wnorm (a - b), Function.update ram 0 (sp - 1)⟩ rfl e8 rfl
    (by simp (disch := omega) [applyDest, compValue, Function.update_same, wnorm_bounded, hidx])).trans ?_
  refine (runProg_step_ciCont _ 23 22 _ 9 _ _ _
    ⟨sp - 2, wnorm (a - b),
      Function.update (Function.update ram 0 (sp - 1)) (sp - 2) 0⟩ rfl e9 rfl
    (by simp [applyDest, compValue])).trans ?_
  refine (runProg_step_ai _ 22 21 _ 10 _
    ⟨16, wnorm (a - b),
      Function.update (Function.update ram 0 (sp - 1)) (sp - 2) 0⟩ rfl e10
    (by simp [symValue, hL2])).trans ?_
  refine (runProg_step_ciJump _ 21 20
    ⟨16, wnorm (a - b), Function.update (Function.update ram 0 (sp - 1)) (sp - 2) 0⟩ 11 _ _ _
    ⟨16, wnorm (a - b), Function.update (Function.update ram 0 (sp - 1)) (sp - 2) 0⟩ 16 rfl e11
    rfl (by simp [applyDest]) rfl).trans ?_
  refine (runProg_step_lbl _ 20 19 _ 16 _ rfl e16).trans ?_
  exact runProg_halt_none _ 19 18 _ 17 rfl e17

/-- C1 (amended): executing the `writer_arithmetic` output for
`eq`/`gt`/`lt` against a stack holding `a` (pushed first) and `b`
(pushed second) pops both, leaves all-ones exactly when the relation
holds and zero otherwise, and drops the stack height by one — provided
the signed difference `a - b` itself fits in the 16-bit word (for `eq`
this covers every representable pair; for `gt`/`lt` pairs whose
difference overflows are excluded, see the counterexample). -/
theorem C1_comparison_semantics (op : CmpOp) (k : Nat) (a b sp a0 d0 : Int) (ram : Int → Int)
    (hr0 : ram 0 = sp) (hra : ram (sp - 2) = a) (hrb : ram (sp - 1) = b)
    (hsp1 : 16 ≤ sp) (hsp2 : sp ≤ 32767)
    (ha1 : -32768 ≤ a) (ha2 : a ≤ 32767) (hb1 : -32768 ≤ b) (hb2 : b ≤ 32767)
    (hov : op = CmpOp.ceq ∨ (-32768 ≤ a - b ∧ a - b ≤ 32767)) :
    ((runProg (cmpProg op k) 32 ⟨a0, d0, ram⟩ 0).ram 0 = sp - 1) ∧
    ((runProg (cmpProg op k) 32 ⟨a0, d0, ram⟩ 0).ram (sp - 2) =
      if cmpRel op a b then -1 else 0) ∧
    (∀ x, x ≠ 0 → x ≠ sp - 2 →
      (runProg (cmpProg op k) 32 ⟨a0, d0, ram⟩ 0).ram x = ram x) := by
  have hovb : op = CmpOp.ceq ∨ (-32768 ≤ a - b ∧ a - b ≤ 32767) := hov
  by_cases hr : cmpRel op a b
  · have hcond : jumpTaken (cmpJump op) (wnorm (a - b)) = true := by
      cases op with
      | ceq =>
        simp only [cmpRel] at hr
        simp only [cmpJump, jumpTaken, wnorm, decide_eq_true_eq]
        omega
      | cgt =>
        have hb : -32768 ≤ a - b ∧ a - b ≤ 32767 := by
          rcases hovb with h | h
          · exact CmpOp.noConfusion h
          · exact h
        simp only [cmpRel] at hr
        simp only [cmpJump, jumpTaken, wnorm, decide_eq_true_eq]
        omega
      | clt =>
        have hb : -32768 ≤ a - b ∧ a - b ≤ 32767 := by
          rcases hovb with h | h
          · exact CmpOp.noConfusion h
          · exact h
        simp only [cmpRel] at hr
        simp only [cmpJump, jumpTaken, wnorm, decide_eq_true_eq]
        omega
    rw [cmpProg_exec_taken op k a b sp a0 d0 ram hr0 hra hrb hsp1 hsp2 hcond]
    refine ⟨?_, ?_, ?_⟩
    · simp (disch := omega) [Function.update_noteq, Function.update_same]
    · simp [Function.update_same, hr]
    · intro x hx1 hx2
      simp (disch := omega) [Function.update_noteq]
  · have hcond : jumpTaken (cmpJump op) (wnorm (a - b)) = false := by
      cases op with
      | ceq =>
        simp only [cmpRel] at hr
        simp only [cmpJump, jumpTaken, wnorm, decide_eq_false_iff_not]
        omega
      | cgt =>
        have hb : -32768 ≤ a - b ∧ a - b ≤ 32767 := by
          rcases hovb with h | h
          · exact CmpOp.noConfusion h
          · exact h
        simp only [cmpRel] at hr
        simp only [cmpJump, jumpTaken, wnorm, decide_eq_false_iff_not]
        omega
      | clt =>
        have hb : -32768 ≤ a - b ∧ a - b ≤ 32767 := by
          rcases hovb with h | h
          · exact CmpOp.noConfusion h
          · exact h
        simp only [cmpRel] at hr
        simp only [cmpJump, jumpTaken, wnorm, decide_eq_false_iff_not]
        omega
    rw [cmpProg_exec_untaken op k a b sp a0 d0 ram hr0 hra hrb hsp1 hsp2 hcond]
    refine ⟨?_, ?_, ?_⟩
    · simp (disch := omega) [Function.update_noteq, Function.update_same]
    · simp [Function.update_same, hr]
    · intro x hx1 hx2
      simp (disch := omega) [Function.update_noteq]

/-- C1 (counterexample): for `gt` at `a = 32767`, `b = -1` the relation
`a > b` holds, yet the emitted code leaves `0` (false) on the stack:
the 16-bit difference `a - b` overflows and `D;JGT` sees a negative
value.  (Cell 256 holds the result, cell 0 the stack pointer.) -/
theorem C1_counterexample :
    cmpRel CmpOp.cgt 32767 (-1) ∧
    (runProg (cmpProg CmpOp.cgt 1) 32 ⟨0, 0, ramCmpTest 32767 (-1)⟩ 0).ram 256 = 0 ∧
    (runProg (cmpProg CmpOp.cgt 1) 32 ⟨0, 0, ramCmpTest 32767 (-1)⟩ 0).ram 0 = 257 := by
  refine ⟨by decide, by decide, by decide⟩

/-- Witness for `C1_comparison_semantics` at `eq`, `a = b = 5`. -/
theorem C1_witness :
    (runProg (cmpProg CmpOp.ceq 1) 32 ⟨0, 0, ramCmpTest 5 5⟩ 0).ram 0 = 258 - 1 ∧
    (runProg (cmpProg CmpOp.ceq 1) 32 ⟨0, 0, ramCmpTest 5 5⟩ 0).ram (258 - 2) =
      if cmpRel CmpOp.ceq 5 5 then -1 else 0 :=
  ⟨(C1_comparison_semantics CmpOp.ceq 1 5 5 258 0 0 (ramCmpTest 5 5) (by decide) (by decide)
      (by decide) (by decide) (by decide) (by decide) (by decide) (by decide) (by decide)
      (Or.inl rfl)).1,
   (C1_comparison_semantics CmpOp.ceq 1 5 5 258 0 0 (ramCmpTest 5 5) (by decide) (by decide)
      (by decide) (by decide) (by decide) (by decide) (by decide) (by decide) (by decide)
      (Or.inl rfl)).2.1⟩

/-- Peeling one instruction off a straight-line block. -/
theorem execStraight_cons (ρ : String → Int) (i : Instr) (is : List Instr) (m m' : Mach)
    (hm : m' = stepData ρ m i) :
    execStraight ρ (i :: is) m = execStraight ρ is m' := by
  subst hm; rfl

/-- The empty block leaves the state unchanged. -/
theorem execStraight_nil (ρ : String → Int) (m : Mach) : execStraight ρ [] m = m := rfl

/-- Full symbolic execution of the emitted `call fn n` code, a minimal
callee body `push constant r`, and the emitted `return` code, from a
state whose registers RAM[0..4] hold `sp`, `lcl`, `arg`, `ths`, `tht`.
`ρ` is the assembler's resolution of the return label and the callee
symbol; the stack region must be disjoint from the register file
(`16 + n ≤ sp`) and clear of the address-space top (`sp + 6 ≤ 32767`). -/
theorem call_push_return_exec (ρ : String → Int) (fn : String) (k n r : Nat)
    (sp lcl arg ths tht A0 D0 : Int) (ram : Int → Int)
    (hr0 : ram 0 = sp) (hr1 : ram 1 = lcl) (hr2 : ram 2 = arg)
    (hr3 : ram 3 = ths) (hr4 : ram 4 = tht)
    (hlo : 16 + (n : Int) ≤ sp) (hhi : sp + 6 ≤ 32767) :
    execStraight ρ returnProg (execStraight ρ (pushConstProg r)
      (execStraight ρ (callProg fn k n) ⟨A0, D0, ram⟩)) =
      ⟨ρ ("RETURN_" ++ fn ++ "_" ++ natRepr k), lcl, Function.update (Function.update (Function.update (Function.update (Function.update (Function.update (Function.update (Function.update (Function.update (Function.update (Function.update (Function.update (Function.update (Function.update (Function.update (Function.update (Function.update (Function.update (Function.update (Function.update (Function.update (Function.update (Function.update (Function.update (Function.update (Function.update (Function.update (ram) (sp) (ρ ("RETURN_" ++ fn ++ "_" ++ natRepr k))) (0) (sp + 1)) (sp + 1) (lcl)) (0) (sp + 2)) (sp + 2) (arg)) (0) (sp + 3)) (sp + 3) (ths)) (0) (sp + 4)) (sp + 4) (tht)) (0) (sp + 5)) (2) (sp - (n : Int))) (1) (sp + 5)) (sp + 5) ((r : Int))) (0) (sp + 6)) (14) (sp + 5)) (15) (ρ ("RETURN_" ++ fn ++ "_" ++ natRepr k))) (0) (sp + 5)) (sp - (n : Int)) ((r : Int))) (0) (sp - (n : Int) + 1)) (14) (sp + 4)) (4) (tht)) (14) (sp + 3)) (3) (ths)) (14) (sp + 2)) (2) (arg)) (14) (sp + 1)) (1) (lcl)⟩ := by
  have hA1 : sp + 1 + 1 = sp + 2 := by ring
  have hA2 : sp + 2 + 1 = sp + 3 := by ring
  have hA3 : sp + 3 + 1 = sp + 4 := by ring
  have hA4 : sp + 4 + 1 = sp + 5 := by ring
  have hA5 : sp + 5 + 1 = sp + 6 := by ring
  have hA6 : sp + 5 - 5 = sp := by ring
  have hA7 : sp + 6 - 1 = sp + 5 := by ring
  have hA8 : sp + 5 - 1 = sp + 4 := by ring
  have hA9 : sp + 4 - 1 = sp + 3 := by ring
  have hA10 : sp + 3 - 1 = sp + 2 := by ring
  have hA11 : sp + 2 - 1 = sp + 1 := by ring
  have hcall : execStraight ρ (callProg fn k n) ⟨A0, D0, ram⟩ =
      ⟨ρ fn, sp + 5, Function.update (Function.update (Function.update (Function.update (Function.update (Function.update (Function.update (Function.update (Function.update (Function.update (Function.update (Function.update (ram) (sp) (ρ ("RETURN_" ++ fn ++ "_" ++ natRepr k))) (0) (sp + 1)) (sp + 1) (lcl)) (0) (sp + 2)) (sp + 2) (arg)) (0) (sp + 3)) (sp + 3) (ths)) (0) (sp + 4)) (sp + 4) (tht)) (0) (sp + 5)) (2) (sp - (n : Int))) (1) (sp + 5)⟩ := by
    rw [show callProg fn k n = 
      [.ai (.sName ("RETURN_" ++ fn ++ "_" ++ natRepr k)),
      .ci .dD .cA .jNone,
      .ai .sSP,
      .ci .dA .cM .jNone,
      .ci .dM .cD .jNone,
      .ai .sSP,
      .ci .dM .cMadd1 .jNone,
      .ai .sLCL,
      .ci .dD .cM .jNone,
      .ai .sSP,
      .ci .dA .cM .jNone,
      .ci .dM .cD .jNone,
      .ai .sSP,
      .ci .dM .cMadd1 .jNone,
      .ai .sARG,
      .ci .dD .cM .jNone,
      .ai .sSP,
      .ci .dA .cM .jNone,
      .ci .dM .cD .jNone,
      .ai .sSP,
      .ci .dM .cMadd1 .jNone,
      .ai .sTHIS,
      .ci .dD .cM .jNone,
      .ai .sSP,
      .ci .dA .cM .jNone,
      .ci .dM .cD .jNone,
      .ai .sSP,
      .ci .dM .cMadd1 .jNone,
      .ai .sTHAT,
      .ci .dD .cM .jNone,
      .ai .sSP,
      .ci .dA .cM .jNone,
      .ci .dM .cD .jNone,
      .ai .sSP,
      .ci .dM .cMadd1 .jNone,
      .ai .sSP,
      .ci .dD .cM .jNone,
      .ai (.sNum 5),
      .ci .dD .cDsubA .jNone,
      .ai (.sNum n),
      .ci .dD .cDsubA .jNone,
      .ai .sARG,
      .ci .dM .cD .jNone,
      .ai .sSP,
      .ci .dD .cM .jNone,
      .ai .sLCL,
      .ci .dM .cD .jNone,
      .ai (.sName fn),
      .ci .dNone .c0 .jJMP,
      .lbl ("RETURN_" ++ fn ++ "_" ++ natRepr k)] from rfl]
    refine (execStraight_cons ρ _ _ _
      ⟨ρ ("RETURN_" ++ fn ++ "_" ++ natRepr k), D0, ram⟩
      (by simp (disch := omega) [stepData, applyDest, compValue, symValue, Mach.mk.injEq, Function.update_same, Function.update_noteq, wnorm_bounded, hr0, hr1, hr2, hr3, hr4, hA1, hA2, hA3, hA4, hA5, hA6, hA7, hA8, hA9, hA10, hA11])).trans ?_
    refine (execStraight_cons ρ _ _ _
      ⟨ρ ("RETURN_" ++ fn ++ "_" ++ natRepr k), ρ ("RETURN_" ++ fn ++ "_" ++ natRepr k), ram⟩
      (by simp (disch := omega) [stepData, applyDest, compValue, symValue, Mach.mk.injEq, Function.update_same, Function.update_noteq, wnorm_bounded, hr0, hr1, hr2, hr3, hr4, hA1, hA2, hA3, hA4, hA5, hA6, hA7, hA8, hA9, hA10, hA11])).trans ?_
    refine (execStraight_cons ρ _ _ _
      ⟨0, ρ ("RETURN_" ++ fn ++ "_" ++ natRepr k), ram⟩
      (by simp (disch := omega) [stepData, applyDest, compValue, symValue, Mach.mk.injEq, Function.update_same, Function.update_noteq, wnorm_bounded, hr0, hr1, hr2, hr3, hr4, hA1, hA2, hA3, hA4, hA5, hA6, hA7, hA8, hA9, hA10, hA11])).trans ?_
    refine (execStraight_cons ρ _ _ _
      ⟨sp, ρ ("RETURN_" ++ fn ++ "_" ++ natRepr k), ram⟩
      (by simp (disch := omega) [stepData, applyDest, compValue, symValue, Mach.mk.injEq, Function.update_same, Function.update_noteq, wnorm_bounded, hr0, hr1, hr2, hr3, hr4, hA1, hA2, hA3, hA4, hA5, hA6, hA7, hA8, hA9, hA10, hA11])).trans ?_
    refine (execStraight_cons ρ _ _ _
      ⟨sp, ρ ("RETURN_" ++ fn ++ "_" ++ natRepr k), Function.update (ram) (sp) (ρ ("RETURN_" ++ fn ++ "_" ++ natRepr k))⟩
      (by simp (disch := omega) [stepData, applyDest, compValue, symValue, Mach.mk.injEq, Function.update_same, Function.update_noteq, wnorm_bounded, hr0, hr1, hr2, hr3, hr4, hA1, hA2, hA3, hA4, hA5, hA6, hA7, hA8, hA9, hA10, hA11])).trans ?_
    refine (execStraight_cons ρ _ _ _
      ⟨0, ρ ("RETURN_" ++ fn ++ "_" ++ natRepr k), Function.update (ram) (sp) (ρ ("RETURN_" ++ fn ++ "_" ++ natRepr k))⟩
      (by simp (disch := omega) [stepData, applyDest, compValue, symValue, Mach.mk.injEq, Function.update_same, Function.update_noteq, wnorm_bounded, hr0, hr1, hr2, hr3, hr4, hA1, hA2, hA3, hA4, hA5, hA6, hA7, hA8, hA9, hA10, hA11])).trans ?_
    refine (execStraight_cons ρ _ _ _
      ⟨0, ρ ("RETURN_" ++ fn ++ "_" ++ natRepr k), Function.update (Function.update (ram) (sp) (ρ ("RETURN_" ++ fn ++ "_" ++ natRepr k))) (0) (sp + 1)⟩
      (by simp (disch := omega) [stepData, applyDest, compValue, symValue, Mach.mk.injEq, Function.update_same, Function.update_noteq, wnorm_bounded, hr0, hr1, hr2, hr3, hr4, hA1, hA2, hA3, hA4, hA5, hA6, hA7, hA8, hA9, hA10, hA11])).trans ?_
    refine (execStraight_cons ρ _ _ _
      ⟨1, ρ ("RETURN_" ++ fn ++ "_" ++ natRepr k), Function.update (Function.update (ram) (sp) (ρ ("RETURN_" ++ fn ++ "_" ++ natRepr k))) (0) (sp + 1)⟩
      (by simp (disch := omega) [stepData, applyDest, compValue, symValue, Mach.mk.injEq, Function.update_same, Function.update_noteq, wnorm_bounded, hr0, hr1, hr2, hr3, hr4, hA1, hA2, hA3, hA4, hA5, hA6, hA7, hA8, hA9, hA10, hA11])).trans ?_
    refine (execStraight_cons ρ _ _ _
      ⟨1, lcl, Function.update (Function.update (ram) (sp) (ρ ("RETURN_" ++ fn ++ "_" ++ natRepr k))) (0) (sp + 1)⟩
      (by simp (disch := omega) [stepData, applyDest, compValue, symValue, Mach.mk.injEq, Function.update_same, Function.update_noteq, wnorm_bounded, hr0, hr1, hr2, hr3, hr4, hA1, hA2, hA3, hA4, hA5, hA6, hA7, hA8, hA9, hA10, hA11])).trans ?_
    refine (execStraight_cons ρ _ _ _
      ⟨0, lcl, Function.update (Function.update (ram) (sp) (ρ ("RETURN_" ++ fn ++ "_" ++ natRepr k))) (0) (sp + 1)⟩
      (by simp (disch := omega) [stepData, applyDest, compValue, symValue, Mach.mk.injEq, Function.update_same, Function.update_noteq, wnorm_bounded, hr0, hr1, hr2, hr3, hr4, hA1, hA2, hA3, hA4, hA5, hA6, hA7, hA8, hA9, hA10, hA11])).trans ?_
    refine (execStraight_cons ρ _ _ _
      ⟨sp + 1, lcl, Function.update (Function.update (ram) (sp) (ρ ("RETURN_" ++ fn ++ "_" ++ natRepr k))) (0) (sp + 1)⟩
      (by simp (disch := omega) [stepData, applyDest, compValue, symValue, Mach.mk.injEq, Function.update_same, Function.update_noteq, wnorm_bounded, hr0, hr1, hr2, hr3, hr4, hA1, hA2, hA3, hA4, hA5, hA6, hA7, hA8, hA9, hA10, hA11])).trans ?_
    refine (execStraight_cons ρ _ _ _
      ⟨sp + 1, lcl, Function.update (Function.update (Function.update (ram) (sp) (ρ ("RETURN_" ++ fn ++ "_" ++ natRepr k))) (0) (sp + 1)) (sp + 1) (lcl)⟩
      (by simp (disch := omega) [stepData, applyDest, compValue, symValue, Mach.mk.injEq, Function.update_same, Function.update_noteq, wnorm_bounded, hr0, hr1, hr2, hr3, hr4, hA1, hA2, hA3, hA4, hA5, hA6, hA7, hA8, hA9, hA10, hA11])).trans ?_
    refine (execStraight_cons ρ _ _ _
      ⟨0, lcl, Function.update (Function.update (Function.update (ram) (sp) (ρ ("RETURN_" ++ fn ++ "_" ++ natRepr k))) (0) (sp + 1)) (sp + 1) (lcl)⟩
      (by simp (disch := omega) [stepData, applyDest, compValue, symValue, Mach.mk.injEq, Function.update_same, Function.update_noteq, wnorm_bounded, hr0, hr1, hr2, hr3, hr4, hA1, hA2, hA3, hA4, hA5, hA6, hA7, hA8, hA9, hA10, hA11])).trans ?_
    refine (execStraight_cons ρ _ _ _
      ⟨0, lcl, Function.update (Function.update (Function.update (Function.update (ram) (sp) (ρ ("RETURN_" ++ fn ++ "_" ++ natRepr k))) (0) (sp + 1)) (sp + 1) (lcl)) (0) (sp + 2)⟩
      (by simp (disch := omega) [stepData, applyDest, compValue, symValue, Mach.mk.injEq, Function.update_same, Function.update_noteq, wnorm_bounded, hr0, hr1, hr2, hr3, hr4, hA1, hA2, hA3, hA4, hA5, hA6, hA7, hA8, hA9, hA10, hA11])).trans ?_
    refine (execStraight_cons ρ _ _ _
      ⟨2, lcl, Function.update (Function.update (Function.update (Function.update (ram) (sp) (ρ ("RETURN_" ++ fn ++ "_" ++ natRepr k))) (0) (sp + 1)) (sp + 1) (lcl)) (0) (sp + 2)⟩
      (by simp (disch := omega) [stepData, applyDest, compValue, symValue, Mach.mk.injEq, Function.update_same, Function.update_noteq, wnorm_bounded, hr0, hr1, hr2, hr3, hr4, hA1, hA2, hA3, hA4, hA5, hA6, hA7, hA8, hA9, hA10, hA11])).trans ?_
    refine (execStraight_cons ρ _ _ _
      ⟨2, arg, Function.update (Function.update (Function.update (Function.update (ram) (sp) (ρ ("RETURN_" ++ fn ++ "_" ++ natRepr k))) (0) (sp + 1)) (sp + 1) (lcl)) (0) (sp + 2)⟩
      (by simp (disch := omega) [stepData, applyDest, compValue, symValue, Mach.mk.injEq, Function.update_same, Function.update_noteq, wnorm_bounded, hr0, hr1, hr2, hr3, hr4, hA1, hA2, hA3, hA4, hA5, hA6, hA7, hA8, hA9, hA10, hA11])).trans ?_
    refine (execStraight_cons ρ _ _ _
      ⟨0, arg, Function.update (Function.update (Function.update (Function.update (ram) (sp) (ρ ("RETURN_" ++ fn ++ "_" ++ natRepr k))) (0) (sp + 1)) (sp + 1) (lcl)) (0) (sp + 2)⟩
      (by simp (disch := omega) [stepData, applyDest, compValue, symValue, Mach.mk.injEq, Function.update_same, Function.update_noteq, wnorm_bounded, hr0, hr1, hr2, hr3, hr4, hA1, hA2, hA3, hA4, hA5, hA6, hA7, hA8, hA9, hA10, hA11])).trans ?_
    refine (execStraight_cons ρ _ _ _
      ⟨sp + 2, arg, Function.update (Function.update (Function.update (Function.update (ram) (sp) (ρ ("RETURN_" ++ fn ++ "_" ++ natRepr k))) (0) (sp + 1)) (sp + 1) (lcl)) (0) (sp + 2)⟩
      (by simp (disch := omega) [stepData, applyDest, compValue, symValue, Mach.mk.injEq, Function.update_same, Function.update_noteq, wnorm_bounded, hr0, hr1, hr2, hr3, hr4, hA1, hA2, hA3, hA4, hA5, hA6, hA7, hA8, hA9, hA10, hA11])).trans ?_
    refine (execStraight_cons ρ _ _ _
      ⟨sp + 2, arg, Function.update (Function.update (Function.update (Function.update (Function.update (ram) (sp) (ρ ("RETURN_" ++ fn ++ "_" ++ natRepr k))) (0) (sp + 1)) (sp + 1) (lcl)) (0) (sp + 2)) (sp + 2) (arg)⟩
      (by simp (disch := omega) [stepData, applyDest, compValue, symValue, Mach.mk.injEq, Function.update_same, Function.update_noteq, wnorm_bounded, hr0, hr1, hr2, hr3, hr4, hA1, hA2, hA3, hA4, hA5, hA6, hA7, hA8, hA9, hA10, hA11])).trans ?_
    refine (execStraight_cons ρ _ _ _
      ⟨0, arg, Function.update (Function.update (Function.update (Function.update (Function.update (ram) (sp) (ρ ("RETURN_" ++ fn ++ "_" ++ natRepr k))) (0) (sp + 1)) (sp + 1) (lcl)) (0) (sp + 2)) (sp + 2) (arg)⟩
      (by simp (disch := omega) [stepData, applyDest, compValue, symValue, Mach.mk.injEq, Function.update_same, Function.update_noteq, wnorm_bounded, hr0, hr1, hr2, hr3, hr4, hA1, hA2, hA3, hA4, hA5, hA6, hA7, hA8, hA9, hA10, hA11])).trans ?_
    refine (execStraight_cons ρ _ _ _
      ⟨0, arg, Function.update (Function.update (Function.update (Function.update (Function.update (Function.update (ram) (sp) (ρ ("RETURN_" ++ fn ++ "_" ++ natRepr k))) (0) (sp + 1)) (sp + 1) (lcl)) (0) (sp + 2)) (sp + 2) (arg)) (0) (sp + 3)⟩
      (by simp (disch := omega) [stepData, applyDest, compValue, symValue, Mach.mk.injEq, Function.update_same, Function.update_noteq, wnorm_bounded, hr0, hr1, hr2, hr3, hr4, hA1, hA2, hA3, hA4, hA5, hA6, hA7, hA8, hA9, hA10, hA11])).trans ?_
    refine (execStraight_cons ρ _ _ _
      ⟨3, arg, Function.update (Function.update (Function.update (Function.update (Function.update (Function.update (ram) (sp) (ρ ("RETURN_" ++ fn ++ "_" ++ natRepr k))) (0) (sp + 1)) (sp + 1) (lcl)) (0) (sp + 2)) (sp + 2) (arg)) (0) (sp + 3)⟩
      (by simp (disch := omega) [stepData, applyDest, compValue, symValue, Mach.mk.injEq, Function.update_same, Function.update_noteq, wnorm_bounded, hr0, hr1, hr2, hr3, hr4, hA1, hA2, hA3, hA4, hA5, hA6, hA7, hA8, hA9, hA10, hA11])).trans ?_
    refine (execStraight_cons ρ _ _ _
      ⟨3, ths, Function.update (Function.update (Function.update (Function.update (Function.update (Function.update (ram) (sp) (ρ ("RETURN_" ++ fn ++ "_" ++ natRepr k))) (0) (sp + 1)) (sp + 1) (lcl)) (0) (sp + 2)) (sp + 2) (arg)) (0) (sp + 3)⟩
      (by simp (disch := omega) [stepData, applyDest, compValue, symValue, Mach.mk.injEq, Function.update_same, Function.update_noteq, wnorm_bounded, hr0, hr1, hr2, hr3, hr4, hA1, hA2, hA3, hA4, hA5, hA6, hA7, hA8, hA9, hA10, hA11])).trans ?_
    refine (execStraight_cons ρ _ _ _
      ⟨0, ths, Function.update (Function.update (Function.update (Function.update (Function.update (Function.update (ram) (sp) (ρ ("RETURN_" ++ fn ++ "_" ++ natRepr k))) (0) (sp + 1)) (sp + 1) (lcl)) (0) (sp + 2)) (sp + 2) (arg)) (0) (sp + 3)⟩
      (by simp (disch := omega) [stepData, applyDest, compValue, symValue, Mach.mk.injEq, Function.update_same, Function.update_noteq, wnorm_bounded, hr0, hr1, hr2, hr3, hr4, hA1, hA2, hA3, hA4, hA5, hA6, hA7, hA8, hA9, hA10, hA11])).trans ?_
    refine (execStraight_cons ρ _ _ _
      ⟨sp + 3, ths, Function.update (Function.update (Function.update (Function.update (Function.update (Function.update (ram) (sp) (ρ ("RETURN_" ++ fn ++ "_" ++ natRepr k))) (0) (sp + 1)) (sp + 1) (lcl)) (0) (sp + 2)) (sp + 2) (arg)) (0) (sp + 3)⟩
      (by simp (disch := omega) [stepData, applyDest, compValue, symValue, Mach.mk.injEq, Function.update_same, Function.update_noteq, wnorm_bounded, hr0, hr1, hr2, hr3, hr4, hA1, hA2, hA3, hA4, hA5, hA6, hA7, hA8, hA9, hA10, hA11])).trans ?_
    refine (execStraight_cons ρ _ _ _
      ⟨sp + 3, ths, Function.update (Function.update (Function.update (Function.update (Function.update (Function.update (Function.update (ram) (sp) (ρ ("RETURN_" ++ fn ++ "_" ++ natRepr k))) (0) (sp + 1)) (sp + 1) (lcl)) (0) (sp + 2)) (sp + 2) (arg)) (0) (sp + 3)) (sp + 3) (ths)⟩
      (by simp (disch := omega) [stepData, applyDest, compValue, symValue, Mach.mk.injEq, Function.update_same, Function.update_noteq, wnorm_bounded, hr0, hr1, hr2, hr3, hr4, hA1, hA2, hA3, hA4, hA5, hA6, hA7, hA8, hA9, hA10, hA11])).trans ?_
    refine (execStraight_cons ρ _ _ _
      ⟨0, ths, Function.update (Function.update (Function.update (Function.update (Function.update (Function.update (Function.update (ram) (sp) (ρ ("RETURN_" ++ fn ++ "_" ++ natRepr k))) (0) (sp + 1)) (sp + 1) (lcl)) (0) (sp + 2)) (sp + 2) (arg)) (0) (sp + 3)) (sp + 3) (ths)⟩
      (by simp (disch := omega) [stepData, applyDest, compValue, symValue, Mach.mk.injEq, Function.update_same, Function.update_noteq, wnorm_bounded, hr0, hr1, hr2, hr3, hr4, hA1, hA2, hA3, hA4, hA5, hA6, hA7, hA8, hA9, hA10, hA11])).trans ?_
    refine (execStraight_cons ρ _ _ _
      ⟨0, ths, Function.update (Function.update (Function.update (Function.update (Function.update (Function.update (Function.update (Function.update (ram) (sp) (ρ ("RETURN_" ++ fn ++ "_" ++ natRepr k))) (0) (sp + 1)) (sp + 1) (lcl)) (0) (sp + 2)) (sp + 2) (arg)) (0) (sp + 3)) (sp + 3) (ths)) (0) (sp + 4)⟩
      (by simp (disch := omega) [stepData, applyDest, compValue, symValue, Mach.mk.injEq, Function.update_same, Function.update_noteq, wnorm_bounded, hr0, hr1, hr2, hr3, hr4, hA1, hA2, hA3, hA4, hA5, hA6, hA7, hA8, hA9, hA10, hA11])).trans ?_
    refine (execStraight_cons ρ _ _ _
      ⟨4, ths, Function.update (Function.update (Function.update (Function.update (Function.update (Function.update (Function.update (Function.update (ram) (sp) (ρ ("RETURN_" ++ fn ++ "_" ++ natRepr k))) (0) (sp + 1)) (sp + 1) (lcl)) (0) (sp + 2)) (sp + 2) (arg)) (0) (sp + 3)) (sp + 3) (ths)) (0) (sp + 4)⟩
      (by simp (disch := omega) [stepData, applyDest, compValue, symValue, Mach.mk.injEq, Function.update_same, Function.update_noteq, wnorm_bounded, hr0, hr1, hr2, hr3, hr4, hA1, hA2, hA3, hA4, hA5, hA6, hA7, hA8, hA9, hA10, hA11])).trans ?_
    refine (execStraight_cons ρ _ _ _
      ⟨4, tht, Function.update (Function.update (Function.update (Function.update (Function.update (Function.update (Function.update (Function.update (ram) (sp) (ρ ("RETURN_" ++ fn ++ "_" ++ natRepr k))) (0) (sp + 1)) (sp + 1) (lcl)) (0) (sp + 2)) (sp + 2) (arg)) (0) (sp + 3)) (sp + 3) (ths)) (0) (sp + 4)⟩
      (by simp (disch := omega) [stepData, applyDest, compValue, symValue, Mach.mk.injEq, Function.update_same, Function.update_noteq, wnorm_bounded, hr0, hr1, hr2, hr3, hr4, hA1, hA2, hA3, hA4, hA5, hA6, hA7, hA8, hA9, hA10, hA11])).trans ?_
    refine (execStraight_cons ρ _ _ _
      ⟨0, tht, Function.update (Function.update (Function.update (Function.update (Function.update (Function.update (Function.update (Function.update (ram) (sp) (ρ ("RETURN_" ++ fn ++ "_" ++ natRepr k))) (0) (sp + 1)) (sp + 1) (lcl)) (0) (sp + 2)) (sp + 2) (arg)) (0) (sp + 3)) (sp + 3) (ths)) (0) (sp + 4)⟩
      (by simp (disch := omega) [stepData, applyDest, compValue, symValue, Mach.mk.injEq, Function.update_same, Function.update_noteq, wnorm_bounded, hr0, hr1, hr2, hr3, hr4, hA1, hA2, hA3, hA4, hA5, hA6, hA7, hA8, hA9, hA10, hA11])).trans ?_
    refine (execStraight_cons ρ _ _ _
      ⟨sp + 4, tht, Function.update (Function.update (Function.update (Function.update (Function.update (Function.update (Function.update (Function.update (ram) (sp) (ρ ("RETURN_" ++ fn ++ "_" ++ natRepr k))) (0) (sp + 1)) (sp + 1) (lcl)) (0) (sp + 2)) (sp + 2) (arg)) (0) (sp + 3)) (sp + 3) (ths)) (0) (sp + 4)⟩
      (by simp (disch := omega) [stepData, applyDest, compValue, symValue, Mach.mk.injEq, Function.update_same, Function.update_noteq, wnorm_bounded, hr0, hr1, hr2, hr3, hr4, hA1, hA2, hA3, hA4, hA5, hA6, hA7, hA8, hA9, hA10, hA11])).trans ?_
    refine (execStraight_cons ρ _ _ _
      ⟨sp + 4, tht, Function.update (Function.update (Function.update (Function.update (Function.update (Function.update (Function.update (Function.update (Function.update (ram) (sp) (ρ ("RETURN_" ++ fn ++ "_" ++ natRepr k))) (0) (sp + 1)) (sp + 1) (lcl)) (0) (sp + 2)) (sp + 2) (arg)) (0) (sp + 3)) (sp + 3) (ths)) (0) (sp + 4)) (sp + 4) (tht)⟩
      (by simp (disch := omega) [stepData, applyDest, compValue, symValue, Mach.mk.injEq, Function.update_same, Function.update_noteq, wnorm_bounded, hr0, hr1, hr2, hr3, hr4, hA1, hA2, hA3, hA4, hA5, hA6, hA7, hA8, hA9, hA10, hA11])).trans ?_
    refine (execStraight_cons ρ _ _ _
      ⟨0, tht, Function.update (Function.update (Function.update (Function.update (Function.update (Function.update (Function.update (Function.update (Function.update (ram) (sp) (ρ ("RETURN_" ++ fn ++ "_" ++ natRepr k))) (0) (sp + 1)) (sp + 1) (lcl)) (0) (sp + 2)) (sp + 2) (arg)) (0) (sp + 3)) (sp + 3) (ths)) (0) (sp + 4)) (sp + 4) (tht)⟩
      (by simp (disch := omega) [stepData, applyDest, compValue, symValue, Mach.mk.injEq, Function.update_same, Function.update_noteq, wnorm_bounded, hr0, hr1, hr2, hr3, hr4, hA1, hA2, hA3, hA4, hA5, hA6, hA7, hA8, hA9, hA10, hA11])).trans ?_
    refine (execStraight_cons ρ _ _ _
      ⟨0, tht, Function.update (Function.update (Function.update (Function.update (Function.update (Function.update (Function.update (Function.update (Function.update (Function.update (ram) (sp) (ρ ("RETURN_" ++ fn ++ "_" ++ natRepr k))) (0) (sp + 1)) (sp + 1) (lcl)) (0) (sp + 2)) (sp + 2) (arg)) (0) (sp + 3)) (sp + 3) (ths)) (0) (sp + 4)) (sp + 4) (tht)) (0) (sp + 5)⟩
      (by simp (disch := omega) [stepData, applyDest, compValue, symValue, Mach.mk.injEq, Function.update_same, Function.update_noteq, wnorm_bounded, hr0, hr1, hr2, hr3, hr4, hA1, hA2, hA3, hA4, hA5, hA6, hA7, hA8, hA9, hA10, hA11])).trans ?_
    refine (execStraight_cons ρ _ _ _
      ⟨0, tht, Function.update (Function.update (Function.update (Function.update (Function.update (Function.update (Function.update (Function.update (Function.update (Function.update (ram) (sp) (ρ ("RETURN_" ++ fn ++ "_" ++ natRepr k))) (0) (sp + 1)) (sp + 1) (lcl)) (0) (sp + 2)) (sp + 2) (arg)) (0) (sp + 3)) (sp + 3) (ths)) (0) (sp + 4)) (sp + 4) (tht)) (0) (sp + 5)⟩
      (by simp (disch := omega) [stepData, applyDest, compValue, symValue, Mach.mk.injEq, Function.update_same, Function.update_noteq, wnorm_bounded, hr0, hr1, hr2, hr3, hr4, hA1, hA2, hA3, hA4, hA5, hA6, hA7, hA8, hA9, hA10, hA11])).trans ?_
    refine (execStraight_cons ρ _ _ _
      ⟨0, sp + 5, Function.update (Function.update (Function.update (Function.update (Function.update (Function.update (Function.update (Function.update (Function.update (Function.update (ram) (sp) (ρ ("RETURN_" ++ fn ++ "_" ++ natRepr k))) (0) (sp + 1)) (sp + 1) (lcl)) (0) (sp + 2)) (sp + 2) (arg)) (0) (sp + 3)) (sp + 3) (ths)) (0) (sp + 4)) (sp + 4) (tht)) (0) (sp + 5)⟩
      (by simp (disch := omega) [stepData, applyDest, compValue, symValue, Mach.mk.injEq, Function.update_same, Function.update_noteq, wnorm_bounded, hr0, hr1, hr2, hr3, hr4, hA1, hA2, hA3, hA4, hA5, hA6, hA7, hA8, hA9, hA10, hA11])).trans ?_
    refine (execStraight_cons ρ _ _ _
      ⟨5, sp + 5, Function.update (Function.update (Function.update (Function.update (Function.update (Function.update (Function.update (Function.update (Function.update (Function.update (ram) (sp) (ρ ("RETURN_" ++ fn ++ "_" ++ natRepr k))) (0) (sp + 1)) (sp + 1) (lcl)) (0) (sp + 2)) (sp + 2) (arg)) (0) (sp + 3)) (sp + 3) (ths)) (0) (sp + 4)) (sp + 4) (tht)) (0) (sp + 5)⟩
      (by simp (disch := omega) [stepData, applyDest, compValue, symValue, Mach.mk.injEq, Function.update_same, Function.update_noteq, wnorm_bounded, hr0, hr1, hr2, hr3, hr4, hA1, hA2, hA3, hA4, hA5, hA6, hA7, hA8, hA9, hA10, hA11])).trans ?_
    refine (execStraight_cons ρ _ _ _
      ⟨5, sp, Function.update (Function.update (Function.update (Function.update (Function.update (Function.update (Function.update (Function.update (Function.update (Function.update (ram) (sp) (ρ ("RETURN_" ++ fn ++ "_" ++ natRepr k))) (0) (sp + 1)) (sp + 1) (lcl)) (0) (sp + 2)) (sp + 2) (arg)) (0) (sp + 3)) (sp + 3) (ths)) (0) (sp + 4)) (sp + 4) (tht)) (0) (sp + 5)⟩
      (by simp (disch := omega) [stepData, applyDest, compValue, symValue, Mach.mk.injEq, Function.update_same, Function.update_noteq, wnorm_bounded, hr0, hr1, hr2, hr3, hr4, hA1, hA2, hA3, hA4, hA5, hA6, hA7, hA8, hA9, hA10, hA11])).trans ?_
    refine (execStraight_cons ρ _ _ _
      ⟨(n : Int), sp, Function.update (Function.update (Function.update (Function.update (Function.update (Function.update (Function.update (Function.update (Function.update (Function.update (ram) (sp) (ρ ("RETURN_" ++ fn ++ "_" ++ natRepr k))) (0) (sp + 1)) (sp + 1) (lcl)) (0) (sp + 2)) (sp + 2) (arg)) (0) (sp + 3)) (sp + 3) (ths)) (0) (sp + 4)) (sp + 4) (tht)) (0) (sp + 5)⟩
      (by simp (disch := omega) [stepData, applyDest, compValue, symValue, Mach.mk.injEq, Function.update_same, Function.update_noteq, wnorm_bounded, hr0, hr1, hr2, hr3, hr4, hA1, hA2, hA3, hA4, hA5, hA6, hA7, hA8, hA9, hA10, hA11])).trans ?_
    refine (execStraight_cons ρ _ _ _
      ⟨(n : Int), sp - (n : Int), Function.update (Function.update (Function.update (Function.update (Function.update (Function.update (Function.update (Function.update (Function.update (Function.update (ram) (sp) (ρ ("RETURN_" ++ fn ++ "_" ++ natRepr k))) (0) (sp + 1)) (sp + 1) (lcl)) (0) (sp + 2)) (sp + 2) (arg)) (0) (sp + 3)) (sp + 3) (ths)) (0) (sp + 4)) (sp + 4) (tht)) (0) (sp + 5)⟩
      (by simp (disch := omega) [stepData, applyDest, compValue, symValue, Mach.mk.injEq, Function.update_same, Function.update_noteq, wnorm_bounded, hr0, hr1, hr2, hr3, hr4, hA1, hA2, hA3, hA4, hA5, hA6, hA7, hA8, hA9, hA10, hA11])).trans ?_
    refine (execStraight_cons ρ _ _ _
      ⟨2, sp - (n : Int), Function.update (Function.update (Function.update (Function.update (Function.update (Function.update (Function.update (Function.update (Function.update (Function.update (ram) (sp) (ρ ("RETURN_" ++ fn ++ "_" ++ natRepr k))) (0) (sp + 1)) (sp + 1) (lcl)) (0) (sp + 2)) (sp + 2) (arg)) (0) (sp + 3)) (sp + 3) (ths)) (0) (sp + 4)) (sp + 4) (tht)) (0) (sp + 5)⟩
      (by simp (disch := omega) [stepData, applyDest, compValue, symValue, Mach.mk.injEq, Function.update_same, Function.update_noteq, wnorm_bounded, hr0, hr1, hr2, hr3, hr4, hA1, hA2, hA3, hA4, hA5, hA6, hA7, hA8, hA9, hA10, hA11])).trans ?_
    refine (execStraight_cons ρ _ _ _
      ⟨2, sp - (n : Int), Function.update (Function.update (Function.update (Function.update (Function.update (Function.update (Function.update (Function.update (Function.update (Function.update (Function.update (ram) (sp) (ρ ("RETURN_" ++ fn ++ "_" ++ natRepr k))) (0) (sp + 1)) (sp + 1) (lcl)) (0) (sp + 2)) (sp + 2) (arg)) (0) (sp + 3)) (sp + 3) (ths)) (0) (sp + 4)) (sp + 4) (tht)) (0) (sp + 5)) (2) (sp - (n : Int))⟩
      (by simp (disch := omega) [stepData, applyDest, compValue, symValue, Mach.mk.injEq, Function.update_same, Function.update_noteq, wnorm_bounded, hr0, hr1, hr2, hr3, hr4, hA1, hA2, hA3, hA4, hA5, hA6, hA7, hA8, hA9, hA10, hA11])).trans ?_
    refine (execStraight_cons ρ _ _ _
      ⟨0, sp - (n : Int), Function.update (Function.update (Function.update (Function.update (Function.update (Function.update (Function.update (Function.update (Function.update (Function.update (Function.update (ram) (sp) (ρ ("RETURN_" ++ fn ++ "_" ++ natRepr k))) (0) (sp + 1)) (sp + 1) (lcl)) (0) (sp + 2)) (sp + 2) (arg)) (0) (sp + 3)) (sp + 3) (ths)) (0) (sp + 4)) (sp + 4) (tht)) (0) (sp + 5)) (2) (sp - (n : Int))⟩
      (by simp (disch := omega) [stepData, applyDest, compValue, symValue, Mach.mk.injEq, Function.update_same, Function.update_noteq, wnorm_bounded, hr0, hr1, hr2, hr3, hr4, hA1, hA2, hA3, hA4, hA5, hA6, hA7, hA8, hA9, hA10, hA11])).trans ?_
    refine (execStraight_cons ρ _ _ _
      ⟨0, sp + 5, Function.update (Function.update (Function.update (Function.update (Function.update (Function.update (Function.update (Function.update (Function.update (Function.update (Function.update (ram) (sp) (ρ ("RETURN_" ++ fn ++ "_" ++ natRepr k))) (0) (sp + 1)) (sp + 1) (lcl)) (0) (sp + 2)) (sp + 2) (arg)) (0) (sp + 3)) (sp + 3) (ths)) (0) (sp + 4)) (sp + 4) (tht)) (0) (sp + 5)) (2) (sp - (n : Int))⟩
      (by simp (disch := omega) [stepData, applyDest, compValue, symValue, Mach.mk.injEq, Function.update_same, Function.update_noteq, wnorm_bounded, hr0, hr1, hr2, hr3, hr4, hA1, hA2, hA3, hA4, hA5, hA6, hA7, hA8, hA9, hA10, hA11])).trans ?_
    refine (execStraight_cons ρ _ _ _
      ⟨1, sp + 5, Function.update (Function.update (Function.update (Function.update (Function.update (Function.update (Function.update (Function.update (Function.update (Function.update (Function.update (ram) (sp) (ρ ("RETURN_" ++ fn ++ "_" ++ natRepr k))) (0) (sp + 1)) (sp + 1) (lcl)) (0) (sp + 2)) (sp + 2) (arg)) (0) (sp + 3)) (sp + 3) (ths)) (0) (sp + 4)) (sp + 4) (tht)) (0) (sp + 5)) (2) (sp - (n : Int))⟩
      (by simp (disch := omega) [stepData, applyDest, compValue, symValue, Mach.mk.injEq, Function.update_same, Function.update_noteq, wnorm_bounded, hr0, hr1, hr2, hr3, hr4, hA1, hA2, hA3, hA4, hA5, hA6, hA7, hA8, hA9, hA10, hA11])).trans ?_
    refine (execStraight_cons ρ _ _ _
      ⟨1, sp + 5, Function.update (Function.update (Function.update (Function.update (Function.update (Function.update (Function.update (Function.update (Function.update (Function.update (Function.update (Function.update (ram) (sp) (ρ ("RETURN_" ++ fn ++ "_" ++ natRepr k))) (0) (sp + 1)) (sp + 1) (lcl)) (0) (sp + 2)) (sp + 2) (arg)) (0) (sp + 3)) (sp + 3) (ths)) (0) (sp + 4)) (sp + 4) (tht)) (0) (sp + 5)) (2) (sp - (n : Int))) (1) (sp + 5)⟩
      (by simp (disch := omega) [stepData, applyDest, compValue, symValue, Mach.mk.injEq, Function.update_same, Function.update_noteq, wnorm_bounded, hr0, hr1, hr2, hr3, hr4, hA1, hA2, hA3, hA4, hA5, hA6, hA7, hA8, hA9, hA10, hA11])).trans ?_
    refine (execStraight_cons ρ _ _ _
      ⟨ρ fn, sp + 5, Function.update (Function.update (Function.update (Function.update (Function.update (Function.update (Function.update (Function.update (Function.update (Function.update (Function.update (Function.update (ram) (sp) (ρ ("RETURN_" ++ fn ++ "_" ++ natRepr k))) (0) (sp + 1)) (sp + 1) (lcl)) (0) (sp + 2)) (sp + 2) (arg)) (0) (sp + 3)) (sp + 3) (ths)) (0) (sp + 4)) (sp + 4) (tht)) (0) (sp + 5)) (2) (sp - (n : Int))) (1) (sp + 5)⟩
      (by simp (disch := omega) [stepData, applyDest, compValue, symValue, Mach.mk.injEq, Function.update_same, Function.update_noteq, wnorm_bounded, hr0, hr1, hr2, hr3, hr4, hA1, hA2, hA3, hA4, hA5, hA6, hA7, hA8, hA9, hA10, hA11])).trans ?_
    refine (execStraight_cons ρ _ _ _
      ⟨ρ fn, sp + 5, Function.update (Function.update (Function.update (Function.update (Function.update (Function.update (Function.update (Function.update (Function.update (Function.update (Function.update (Function.update (ram) (sp) (ρ ("RETURN_" ++ fn ++ "_" ++ natRepr k))) (0) (sp + 1)) (sp + 1) (lcl)) (0) (sp + 2)) (sp + 2) (arg)) (0) (sp + 3)) (sp + 3) (ths)) (0) (sp + 4)) (sp + 4) (tht)) (0) (sp + 5)) (2) (sp - (n : Int))) (1) (sp + 5)⟩
      (by simp (disch := omega) [stepData, applyDest, compValue, symValue, Mach.mk.injEq, Function.update_same, Function.update_noteq, wnorm_bounded, hr0, hr1, hr2, hr3, hr4, hA1, hA2, hA3, hA4, hA5, hA6, hA7, hA8, hA9, hA10, hA11])).trans ?_
    refine (execStraight_cons ρ _ _ _
      ⟨ρ fn, sp + 5, Function.update (Function.update (Function.update (Function.update (Function.update (Function.update (Function.update (Function.update (Function.update (Function.update (Function.update (Function.update (ram) (sp) (ρ ("RETURN_" ++ fn ++ "_" ++ natRepr k))) (0) (sp + 1)) (sp + 1) (lcl)) (0) (sp + 2)) (sp + 2) (arg)) (0) (sp + 3)) (sp + 3) (ths)) (0) (sp + 4)) (sp + 4) (tht)) (0) (sp + 5)) (2) (sp - (n : Int))) (1) (sp + 5)⟩
      (by simp (disch := omega) [stepData, applyDest, compValue, symValue, Mach.mk.injEq, Function.update_same, Function.update_noteq, wnorm_bounded, hr0, hr1, hr2, hr3, hr4, hA1, hA2, hA3, hA4, hA5, hA6, hA7, hA8, hA9, hA10, hA11])).trans ?_
    exact execStraight_nil ρ _
  rw [hcall]
  have hpush : execStraight ρ (pushConstProg r) ⟨ρ fn, sp + 5, Function.update (Function.update (Function.update (Function.update (Function.update (Function.update (Function.update (Function.update (Function.update (Function.update (Function.update (Function.update (ram) (sp) (ρ ("RETURN_" ++ fn ++ "_" ++ natRepr k))) (0) (sp + 1)) (sp + 1) (lcl)) (0) (sp + 2)) (sp + 2) (arg)) (0) (sp + 3)) (sp + 3) (ths)) (0) (sp + 4)) (sp + 4) (tht)) (0) (sp + 5)) (2) (sp - (n : Int))) (1) (sp + 5)⟩ =
      ⟨0, (r : Int), Function.update (Function.update (Function.update (Function.update (Function.update (Function.update (Function.update (Function.update (Function.update (Function.update (Function.update (Function.update (Function.update (Function.update (ram) (sp) (ρ ("RETURN_" ++ fn ++ "_" ++ natRepr k))) (0) (sp + 1)) (sp + 1) (lcl)) (0) (sp + 2)) (sp + 2) (arg)) (0) (sp + 3)) (sp + 3) (ths)) (0) (sp + 4)) (sp + 4) (tht)) (0) (sp + 5)) (2) (sp - (n : Int))) (1) (sp + 5)) (sp + 5) ((r : Int))) (0) (sp + 6)⟩ := by
    rw [show pushConstProg r = 
      [.ai (.sNum r),
      .ci .dD .cA .jNone,
      .ai .sSP,
      .ci .dA .cM .jNone,
      .ci .dM .cD .jNone,
      .ai .sSP,
      .ci .dM .cMadd1 .jNone] from rfl]
    refine (execStraight_cons ρ _ _ _
      ⟨(r : Int), sp + 5, Function.update (Function.update (Function.update (Function.update (Function.update (Function.update (Function.update (Function.update (Function.update (Function.update (Function.update (Function.update (ram) (sp) (ρ ("RETURN_" ++ fn ++ "_" ++ natRepr k))) (0) (sp + 1)) (sp + 1) (lcl)) (0) (sp + 2)) (sp + 2) (arg)) (0) (sp + 3)) (sp + 3) (ths)) (0) (sp + 4)) (sp + 4) (tht)) (0) (sp + 5)) (2) (sp - (n : Int))) (1) (sp + 5)⟩
      (by simp (disch := omega) [stepData, applyDest, compValue, symValue, Mach.mk.injEq, Function.update_same, Function.update_noteq, wnorm_bounded, hr0, hr1, hr2, hr3, hr4, hA1, hA2, hA3, hA4, hA5, hA6, hA7, hA8, hA9, hA10, hA11])).trans ?_
    refine (execStraight_cons ρ _ _ _
      ⟨(r : Int), (r : Int), Function.update (Function.update (Function.update (Function.update (Function.update (Function.update (Function.update (Function.update (Function.update (Function.update (Function.update (Function.update (ram) (sp) (ρ ("RETURN_" ++ fn ++ "_" ++ natRepr k))) (0) (sp + 1)) (sp + 1) (lcl)) (0) (sp + 2)) (sp + 2) (arg)) (0) (sp + 3)) (sp + 3) (ths)) (0) (sp + 4)) (sp + 4) (tht)) (0) (sp + 5)) (2) (sp - (n : Int))) (1) (sp + 5)⟩
      (by simp (disch := omega) [stepData, applyDest, compValue, symValue, Mach.mk.injEq, Function.update_same, Function.update_noteq, wnorm_bounded, hr0, hr1, hr2, hr3, hr4, hA1, hA2, hA3, hA4, hA5, hA6, hA7, hA8, hA9, hA10, hA11])).trans ?_
    refine (execStraight_cons ρ _ _ _
      ⟨0, (r : Int), Function.update (Function.update (Function.update (Function.update (Function.update (Function.update (Function.update (Function.update (Function.update (Function.update (Function.update (Function.update (ram) (sp) (ρ ("RETURN_" ++ fn ++ "_" ++ natRepr k))) (0) (sp + 1)) (sp + 1) (lcl)) (0) (sp + 2)) (sp + 2) (arg)) (0) (sp + 3)) (sp + 3) (ths)) (0) (sp + 4)) (sp + 4) (tht)) (0) (sp + 5)) (2) (sp - (n : Int))) (1) (sp + 5)⟩
      (by simp (disch := omega) [stepData, applyDest, compValue, symValue, Mach.mk.injEq, Function.update_same, Function.update_noteq, wnorm_bounded, hr0, hr1, hr2, hr3, hr4, hA1, hA2, hA3, hA4, hA5, hA6, hA7, hA8, hA9, hA10, hA11])).trans ?_
    refine (execStraight_cons ρ _ _ _
      ⟨sp + 5, (r : Int), Function.update (Function.update (Function.update (Function.update (Function.update (Function.update (Function.update (Function.update (Function.update (Function.update (Function.update (Function.update (ram) (sp) (ρ ("RETURN_" ++ fn ++ "_" ++ natRepr k))) (0) (sp + 1)) (sp + 1) (lcl)) (0) (sp + 2)) (sp + 2) (arg)) (0) (sp + 3)) (sp + 3) (ths)) (0) (sp + 4)) (sp + 4) (tht)) (0) (sp + 5)) (2) (sp - (n : Int))) (1) (sp + 5)⟩
      (by simp (disch := omega) [stepData, applyDest, compValue, symValue, Mach.mk.injEq, Function.update_same, Function.update_noteq, wnorm_bounded, hr0, hr1, hr2, hr3, hr4, hA1, hA2, hA3, hA4, hA5, hA6, hA7, hA8, hA9, hA10, hA11])).trans ?_
    refine (execStraight_cons ρ _ _ _
      ⟨sp + 5, (r : Int), Function.update (Function.update (Function.update (Function.update (Function.update (Function.update (Function.update (Function.update (Function.update (Function.update (Function.update (Function.update (Function.update (ram) (sp) (ρ ("RETURN_" ++ fn ++ "_" ++ natRepr k))) (0) (sp + 1)) (sp + 1) (lcl)) (0) (sp + 2)) (sp + 2) (arg)) (0) (sp + 3)) (sp + 3) (ths)) (0) (sp + 4)) (sp + 4) (tht)) (0) (sp + 5)) (2) (sp - (n : Int))) (1) (sp + 5)) (sp + 5) ((r : Int))⟩
      (by simp (disch := omega) [stepData, applyDest, compValue, symValue, Mach.mk.injEq, Function.update_same, Function.update_noteq, wnorm_bounded, hr0, hr1, hr2, hr3, hr4, hA1, hA2, hA3, hA4, hA5, hA6, hA7, hA8, hA9, hA10, hA11])).trans ?_
    refine (execStraight_cons ρ _ _ _
      ⟨0, (r : Int), Function.update (Function.update (Function.update (Function.update (Function.update (Function.update (Function.update (Function.update (Function.update (Function.update (Function.update (Function.update (Function.update (ram) (sp) (ρ ("RETURN_" ++ fn ++ "_" ++ natRepr k))) (0) (sp + 1)) (sp + 1) (lcl)) (0) (sp + 2)) (sp + 2) (arg)) (0) (sp + 3)) (sp + 3) (ths)) (0) (sp + 4)) (sp + 4) (tht)) (0) (sp + 5)) (2) (sp - (n : Int))) (1) (sp + 5)) (sp + 5) ((r : Int))⟩
      (by simp (disch := omega) [stepData, applyDest, compValue, symValue, Mach.mk.injEq, Function.update_same, Function.update_noteq, wnorm_bounded, hr0, hr1, hr2, hr3, hr4, hA1, hA2, hA3, hA4, hA5, hA6, hA7, hA8, hA9, hA10, hA11])).trans ?_
    refine (execStraight_cons ρ _ _ _
      ⟨0, (r : Int), Function.update (Function.update (Function.update (Function.update (Function.update (Function.update (Function.update (Function.update (Function.update (Function.update (Function.update (Function.update (Function.update (Function.update (ram) (sp) (ρ ("RETURN_" ++ fn ++ "_" ++ natRepr k))) (0) (sp + 1)) (sp + 1) (lcl)) (0) (sp + 2)) (sp + 2) (arg)) (0) (sp + 3)) (sp + 3) (ths)) (0) (sp + 4)) (sp + 4) (tht)) (0) (sp + 5)) (2) (sp - (n : Int))) (1) (sp + 5)) (sp + 5) ((r : Int))) (0) (sp + 6)⟩
      (by simp (disch := omega) [stepData, applyDest, compValue, symValue, Mach.mk.injEq, Function.update_same, Function.update_noteq, wnorm_bounded, hr0, hr1, hr2, hr3, hr4, hA1, hA2, hA3, hA4, hA5, hA6, hA7, hA8, hA9, hA10, hA11])).trans ?_
    exact execStraight_nil ρ _
  rw [hpush]
  rw [show returnProg = 
    [.ai .sLCL,
      .ci .dD .cM .jNone,
      .ai .sR14,
      .ci .dM .cD .jNone,
      .ai (.sNum 5),
      .ci .dA .cDsubA .jNone,
      .ci .dD .cM .jNone,
      .ai .sR15,
      .ci .dM .cD .jNone,
      .ai .sSP,
      .ci .dAM .cMsub1 .jNone,
      .ci .dD .cM .jNone,
      .ai .sARG,
      .ci .dA .cM .jNone,
      .ci .dM .cD .jNone,
      .ci .dD .cAadd1 .jNone,
      .ai .sSP,
      .ci .dM .cD .jNone,
      .ai .sR14,
      .ci .dAM .cMsub1 .jNone,
      .ci .dD .cM .jNone,
      .ai .sTHAT,
      .ci .dM .cD .jNone,
      .ai .sR14,
      .ci .dAM .cMsub1 .jNone,
      .ci .dD .cM .jNone,
      .ai .sTHIS,
      .ci .dM .cD .jNone,
      .ai .sR14,
      .ci .dAM .cMsub1 .jNone,
      .ci .dD .cM .jNone,
      .ai .sARG,
      .ci .dM .cD .jNone,
      .ai .sR14,
      .ci .dAM .cMsub1 .jNone,
      .ci .dD .cM .jNone,
      .ai .sLCL,
      .ci .dM .cD .jNone,
      .ai .sR15,
      .ci .dA .cM .jNone,
      .ci .dNone .c0 .jJMP] from rfl]
  refine (execStraight_cons ρ _ _ _
    ⟨1, (r : Int), Function.update (Function.update (Function.update (Function.update (Function.update (Function.update (Function.update (Function.update (Function.update (Function.update (Function.update (Function.update (Function.update (Function.update (ram) (sp) (ρ ("RETURN_" ++ fn ++ "_" ++ natRepr k))) (0) (sp + 1)) (sp + 1) (lcl)) (0) (sp + 2)) (sp + 2) (arg)) (0) (sp + 3)) (sp + 3) (ths)) (0) (sp + 4)) (sp + 4) (tht)) (0) (sp + 5)) (2) (sp - (n : Int))) (1) (sp + 5)) (sp + 5) ((r : Int))) (0) (sp + 6)⟩
    (by simp (disch := omega) [stepData, applyDest, compValue, symValue, Mach.mk.injEq, Function.update_same, Function.update_noteq, wnorm_bounded, hr0, hr1, hr2, hr3, hr4, hA1, hA2, hA3, hA4, hA5, hA6, hA7, hA8, hA9, hA10, hA11])).trans ?_
  refine (execStraight_cons ρ _ _ _
    ⟨1, sp + 5, Function.update (Function.update (Function.update (Function.update (Function.update (Function.update (Function.update (Function.update (Function.update (Function.update (Function.update (Function.update (Function.update (Function.update (ram) (sp) (ρ ("RETURN_" ++ fn ++ "_" ++ natRepr k))) (0) (sp + 1)) (sp + 1) (lcl)) (0) (sp + 2)) (sp + 2) (arg)) (0) (sp + 3)) (sp + 3) (ths)) (0) (sp + 4)) (sp + 4) (tht)) (0) (sp + 5)) (2) (sp - (n : Int))) (1) (sp + 5)) (sp + 5) ((r : Int))) (0) (sp + 6)⟩
    (by simp (disch := omega) [stepData, applyDest, compValue, symValue, Mach.mk.injEq, Function.update_same, Function.update_noteq, wnorm_bounded, hr0, hr1, hr2, hr3, hr4, hA1, hA2, hA3, hA4, hA5, hA6, hA7, hA8, hA9, hA10, hA11])).trans ?_
  refine (execStraight_cons ρ _ _ _
    ⟨14, sp + 5, Function.update (Function.update (Function.update (Function.update (Function.update (Function.update (Function.update (Function.update (Function.update (Function.update (Function.update (Function.update (Function.update (Function.update (ram) (sp) (ρ ("RETURN_" ++ fn ++ "_" ++ natRepr k))) (0) (sp + 1)) (sp + 1) (lcl)) (0) (sp + 2)) (sp + 2) (arg)) (0) (sp + 3)) (sp + 3) (ths)) (0) (sp + 4)) (sp + 4) (tht)) (0) (sp + 5)) (2) (sp - (n : Int))) (1) (sp + 5)) (sp + 5) ((r : Int))) (0) (sp + 6)⟩
    (by simp (disch := omega) [stepData, applyDest, compValue, symValue, Mach.mk.injEq, Function.update_same, Function.update_noteq, wnorm_bounded, hr0, hr1, hr2, hr3, hr4, hA1, hA2, hA3, hA4, hA5, hA6, hA7, hA8, hA9, hA10, hA11])).trans ?_
  refine (execStraight_cons ρ _ _ _
    ⟨14, sp + 5, Function.update (Function.update (Function.update (Function.update (Function.update (Function.update (Function.update (Function.update (Function.update (Function.update (Function.update (Function.update (Function.update (Function.update (Function.update (ram) (sp) (ρ ("RETURN_" ++ fn ++ "_" ++ natRepr k))) (0) (sp + 1)) (sp + 1) (lcl)) (0) (sp + 2)) (sp + 2) (arg)) (0) (sp + 3)) (sp + 3) (ths)) (0) (sp + 4)) (sp + 4) (tht)) (0) (sp + 5)) (2) (sp - (n : Int))) (1) (sp + 5)) (sp + 5) ((r : Int))) (0) (sp + 6)) (14) (sp + 5)⟩
    (by simp (disch := omega) [stepData, applyDest, compValue, symValue, Mach.mk.injEq, Function.update_same, Function.update_noteq, wnorm_bounded, hr0, hr1, hr2, hr3, hr4, hA1, hA2, hA3, hA4, hA5, hA6, hA7, hA8, hA9, hA10, hA11])).trans ?_
  refine (execStraight_cons ρ _ _ _
    ⟨5, sp + 5, Function.update (Function.update (Function.update (Function.update (Function.update (Function.update (Function.update (Function.update (Function.update (Function.update (Function.update (Function.update (Function.update (Function.update (Function.update (ram) (sp) (ρ ("RETURN_" ++ fn ++ "_" ++ natRepr k))) (0) (sp + 1)) (sp + 1) (lcl)) (0) (sp + 2)) (sp + 2) (arg)) (0) (sp + 3)) (sp + 3) (ths)) (0) (sp + 4)) (sp + 4) (tht)) (0) (sp + 5)) (2) (sp - (n : Int))) (1) (sp + 5)) (sp + 5) ((r : Int))) (0) (sp + 6)) (14) (sp + 5)⟩
    (by simp (disch := omega) [stepData, applyDest, compValue, symValue, Mach.mk.injEq, Function.update_same, Function.update_noteq, wnorm_bounded, hr0, hr1, hr2, hr3, hr4, hA1, hA2, hA3, hA4, hA5, hA6, hA7, hA8, hA9, hA10, hA11])).trans ?_
  refine (execStraight_cons ρ _ _ _
    ⟨sp, sp + 5, Function.update (Function.update (Function.update (Function.update (Function.update (Function.update (Function.update (Function.update (Function.update (Function.update (Function.update (Function.update (Function.update (Function.update (Function.update (ram) (sp) (ρ ("RETURN_" ++ fn ++ "_" ++ natRepr k))) (0) (sp + 1)) (sp + 1) (lcl)) (0) (sp + 2)) (sp + 2) (arg)) (0) (sp + 3)) (sp + 3) (ths)) (0) (sp + 4)) (sp + 4) (tht)) (0) (sp + 5)) (2) (sp - (n : Int))) (1) (sp + 5)) (sp + 5) ((r : Int))) (0) (sp + 6)) (14) (sp + 5)⟩
    (by simp (disch := omega) [stepData, applyDest, compValue, symValue, Mach.mk.injEq, Function.update_same, Function.update_noteq, wnorm_bounded, hr0, hr1, hr2, hr3, hr4, hA1, hA2, hA3, hA4, hA5, hA6, hA7, hA8, hA9, hA10, hA11])).trans ?_
  refine (execStraight_cons ρ _ _ _
    ⟨sp, ρ ("RETURN_" ++ fn ++ "_" ++ natRepr k), Function.update (Function.update (Function.update (Function.update (Function.update (Function.update (Function.update (Function.update (Function.update (Function.update (Function.update (Function.update (Function.update (Function.update (Function.update (ram) (sp) (ρ ("RETURN_" ++ fn ++ "_" ++ natRepr k))) (0) (sp + 1)) (sp + 1) (lcl)) (0) (sp + 2)) (sp + 2) (arg)) (0) (sp + 3)) (sp + 3) (ths)) (0) (sp + 4)) (sp + 4) (tht)) (0) (sp + 5)) (2) (sp - (n : Int))) (1) (sp + 5)) (sp + 5) ((r : Int))) (0) (sp + 6)) (14) (sp + 5)⟩
    (by simp (disch := omega) [stepData, applyDest, compValue, symValue, Mach.mk.injEq, Function.update_same, Function.update_noteq, wnorm_bounded, hr0, hr1, hr2, hr3, hr4, hA1, hA2, hA3, hA4, hA5, hA6, hA7, hA8, hA9, hA10, hA11])).trans ?_
  refine (execStraight_cons ρ _ _ _
    ⟨15, ρ ("RETURN_" ++ fn ++ "_" ++ natRepr k), Function.update (Function.update (Function.update (Function.update (Function.update (Function.update (Function.update (Function.update (Function.update (Function.update (Function.update (Function.update (Function.update (Function.update (Function.update (ram) (sp) (ρ ("RETURN_" ++ fn ++ "_" ++ natRepr k))) (0) (sp + 1)) (sp + 1) (lcl)) (0) (sp + 2)) (sp + 2) (arg)) (0) (sp + 3)) (sp + 3) (ths)) (0) (sp + 4)) (sp + 4) (tht)) (0) (sp + 5)) (2) (sp - (n : Int))) (1) (sp + 5)) (sp + 5) ((r : Int))) (0) (sp + 6)) (14) (sp + 5)⟩
    (by simp (disch := omega) [stepData, applyDest, compValue, symValue, Mach.mk.injEq, Function.update_same, Function.update_noteq, wnorm_bounded, hr0, hr1, hr2, hr3, hr4, hA1, hA2, hA3, hA4, hA5, hA6, hA7, hA8, hA9, hA10, hA11])).trans ?_
  refine (execStraight_cons ρ _ _ _
    ⟨15, ρ ("RETURN_" ++ fn ++ "_" ++ natRepr k), Function.update (Function.update (Function.update (Function.update (Function.update (Function.update (Function.update (Function.update (Function.update (Function.update (Function.update (Function.update (Function.update (Function.update (Function.update (Function.update (ram) (sp) (ρ ("RETURN_" ++ fn ++ "_" ++ natRepr k))) (0) (sp + 1)) (sp + 1) (lcl)) (0) (sp + 2)) (sp + 2) (arg)) (0) (sp + 3)) (sp + 3) (ths)) (0) (sp + 4)) (sp + 4) (tht)) (0) (sp + 5)) (2) (sp - (n : Int))) (1) (sp + 5)) (sp + 5) ((r : Int))) (0) (sp + 6)) (14) (sp + 5)) (15) (ρ ("RETURN_" ++ fn ++ "_" ++ natRepr k))⟩
    (by simp (disch := omega) [stepData, applyDest, compValue, symValue, Mach.mk.injEq, Function.update_same, Function.update_noteq, wnorm_bounded, hr0, hr1, hr2, hr3, hr4, hA1, hA2, hA3, hA4, hA5, hA6, hA7, hA8, hA9, hA10, hA11])).trans ?_
  refine (execStraight_cons ρ _ _ _
    ⟨0, ρ ("RETURN_" ++ fn ++ "_" ++ natRepr k), Function.update (Function.update (Function.update (Function.update (Function.update (Function.update (Function.update (Function.update (Function.update (Function.update (Function.update (Function.update (Function.update (Function.update (Function.update (Function.update (ram) (sp) (ρ ("RETURN_" ++ fn ++ "_" ++ natRepr k))) (0) (sp + 1)) (sp + 1) (lcl)) (0) (sp + 2)) (sp + 2) (arg)) (0) (sp + 3)) (sp + 3) (ths)) (0) (sp + 4)) (sp + 4) (tht)) (0) (sp + 5)) (2) (sp - (n : Int))) (1) (sp + 5)) (sp + 5) ((r : Int))) (0) (sp + 6)) (14) (sp + 5)) (15) (ρ ("RETURN_" ++ fn ++ "_" ++ natRepr k))⟩
    (by simp (disch := omega) [stepData, applyDest, compValue, symValue, Mach.mk.injEq, Function.update_same, Function.update_noteq, wnorm_bounded, hr0, hr1, hr2, hr3, hr4, hA1, hA2, hA3, hA4, hA5, hA6, hA7, hA8, hA9, hA10, hA11])).trans ?_
  refine (execStraight_cons ρ _ _ _
    ⟨sp + 5, ρ ("RETURN_" ++ fn ++ "_" ++ natRepr k), Function.update (Function.update (Function.update (Function.update (Function.update (Function.update (Function.update (Function.update (Function.update (Function.update (Function.update (Function.update (Function.update (Function.update (Function.update (Function.update (Function.update (ram) (sp) (ρ ("RETURN_" ++ fn ++ "_" ++ natRepr k))) (0) (sp + 1)) (sp + 1) (lcl)) (0) (sp + 2)) (sp + 2) (arg)) (0) (sp + 3)) (sp + 3) (ths)) (0) (sp + 4)) (sp + 4) (tht)) (0) (sp + 5)) (2) (sp - (n : Int))) (1) (sp + 5)) (sp + 5) ((r : Int))) (0) (sp + 6)) (14) (sp + 5)) (15) (ρ ("RETURN_" ++ fn ++ "_" ++ natRepr k))) (0) (sp + 5)⟩
    (by simp (disch := omega) [stepData, applyDest, compValue, symValue, Mach.mk.injEq, Function.update_same, Function.update_noteq, wnorm_bounded, hr0, hr1, hr2, hr3, hr4, hA1, hA2, hA3, hA4, hA5, hA6, hA7, hA8, hA9, hA10, hA11])).trans ?_
  refine (execStraight_cons ρ _ _ _
    ⟨sp + 5, (r : Int), Function.update (Function.update (Function.update (Function.update (Function.update (Function.update (Function.update (Function.update (Function.update (Function.update (Function.update (Function.update (Function.update (Function.update (Function.update (Function.update (Function.update (ram) (sp) (ρ ("RETURN_" ++ fn ++ "_" ++ natRepr k))) (0) (sp + 1)) (sp + 1) (lcl)) (0) (sp + 2)) (sp + 2) (arg)) (0) (sp + 3)) (sp + 3) (ths)) (0) (sp + 4)) (sp + 4) (tht)) (0) (sp + 5)) (2) (sp - (n : Int))) (1) (sp + 5)) (sp + 5) ((r : Int))) (0) (sp + 6)) (14) (sp + 5)) (15) (ρ ("RETURN_" ++ fn ++ "_" ++ natRepr k))) (0) (sp + 5)⟩
    (by simp (disch := omega) [stepData, applyDest, compValue, symValue, Mach.mk.injEq, Function.update_same, Function.update_noteq, wnorm_bounded, hr0, hr1, hr2, hr3, hr4, hA1, hA2, hA3, hA4, hA5, hA6, hA7, hA8, hA9, hA10, hA11])).trans ?_
  refine (execStraight_cons ρ _ _ _
    ⟨2, (r : Int), Function.update (Function.update (Function.update (Function.update (Function.update (Function.update (Function.update (Function.update (Function.update (Function.update (Function.update (Function.update (Function.update (Function.update (Function.update (Function.update (Function.update (ram) (sp) (ρ ("RETURN_" ++ fn ++ "_" ++ natRepr k))) (0) (sp + 1)) (sp + 1) (lcl)) (0) (sp + 2)) (sp + 2) (arg)) (0) (sp + 3)) (sp + 3) (ths)) (0) (sp + 4)) (sp + 4) (tht)) (0) (sp + 5)) (2) (sp - (n : Int))) (1) (sp + 5)) (sp + 5) ((r : Int))) (0) (sp + 6)) (14) (sp + 5)) (15) (ρ ("RETURN_" ++ fn ++ "_" ++ natRepr k))) (0) (sp + 5)⟩
    (by simp (disch := omega) [stepData, applyDest, compValue, symValue, Mach.mk.injEq, Function.update_same, Function.update_noteq, wnorm_bounded, hr0, hr1, hr2, hr3, hr4, hA1, hA2, hA3, hA4, hA5, hA6, hA7, hA8, hA9, hA10, hA11])).trans ?_
  refine (execStraight_cons ρ _ _ _
    ⟨sp - (n : Int), (r : Int), Function.update (Function.update (Function.update (Function.update (Function.update (Function.update (Function.update (Function.update (Function.update (Function.update (Function.update (Function.update (Function.update (Function.update (Function.update (Function.update (Function.update (ram) (sp) (ρ ("RETURN_" ++ fn ++ "_" ++ natRepr k))) (0) (sp + 1)) (sp + 1) (lcl)) (0) (sp + 2)) (sp + 2) (arg)) (0) (sp + 3)) (sp + 3) (ths)) (0) (sp + 4)) (sp + 4) (tht)) (0) (sp + 5)) (2) (sp - (n : Int))) (1) (sp + 5)) (sp + 5) ((r : Int))) (0) (sp + 6)) (14) (sp + 5)) (15) (ρ ("RETURN_" ++ fn ++ "_" ++ natRepr k))) (0) (sp + 5)⟩
    (by simp (disch := omega) [stepData, applyDest, compValue, symValue, Mach.mk.injEq, Function.update_same, Function.update_noteq, wnorm_bounded, hr0, hr1, hr2, hr3, hr4, hA1, hA2, hA3, hA4, hA5, hA6, hA7, hA8, hA9, hA10, hA11])).trans ?_
  refine (execStraight_cons ρ _ _ _
    ⟨sp - (n : Int), (r : Int), Function.update (Function.update (Function.update (Function.update (Function.update (Function.update (Function.update (Function.update (Function.update (Function.update (Function.update (Function.update (Function.update (Function.update (Function.update (Function.update (Function.update (Function.update (ram) (sp) (ρ ("RETURN_" ++ fn ++ "_" ++ natRepr k))) (0) (sp + 1)) (sp + 1) (lcl)) (0) (sp + 2)) (sp + 2) (arg)) (0) (sp + 3)) (sp + 3) (ths)) (0) (sp + 4)) (sp + 4) (tht)) (0) (sp + 5)) (2) (sp - (n : Int))) (1) (sp + 5)) (sp + 5) ((r : Int))) (0) (sp + 6)) (14) (sp + 5)) (15) (ρ ("RETURN_" ++ fn ++ "_" ++ natRepr k))) (0) (sp + 5)) (sp - (n : Int)) ((r : Int))⟩
    (by simp (disch := omega) [stepData, applyDest, compValue, symValue, Mach.mk.injEq, Function.update_same, Function.update_noteq, wnorm_bounded, hr0, hr1, hr2, hr3, hr4, hA1, hA2, hA3, hA4, hA5, hA6, hA7, hA8, hA9, hA10, hA11])).trans ?_
  refine (execStraight_cons ρ _ _ _
    ⟨sp - (n : Int), sp - (n : Int) + 1, Function.update (Function.update (Function.update (Function.update (Function.update (Function.update (Function.update (Function.update (Function.update (Function.update (Function.update (Function.update (Function.update (Function.update (Function.update (Function.update (Function.update (Function.update (ram) (sp) (ρ ("RETURN_" ++ fn ++ "_" ++ natRepr k))) (0) (sp + 1)) (sp + 1) (lcl)) (0) (sp + 2)) (sp + 2) (arg)) (0) (sp + 3)) (sp + 3) (ths)) (0) (sp + 4)) (sp + 4) (tht)) (0) (sp + 5)) (2) (sp - (n : Int))) (1) (sp + 5)) (sp + 5) ((r : Int))) (0) (sp + 6)) (14) (sp + 5)) (15) (ρ ("RETURN_" ++ fn ++ "_" ++ natRepr k))) (0) (sp + 5)) (sp - (n : Int)) ((r : Int))⟩
    (by simp (disch := omega) [stepData, applyDest, compValue, symValue, Mach.mk.injEq, Function.update_same, Function.update_noteq, wnorm_bounded, hr0, hr1, hr2, hr3, hr4, hA1, hA2, hA3, hA4, hA5, hA6, hA7, hA8, hA9, hA10, hA11])).trans ?_
  refine (execStraight_cons ρ _ _ _
    ⟨0, sp - (n : Int) + 1, Function.update (Function.update (Function.update (Function.update (Function.update (Function.update (Function.update (Function.update (Function.update (Function.update (Function.update (Function.update (Function.update (Function.update (Function.update (Function.update (Function.update (Function.update (ram) (sp) (ρ ("RETURN_" ++ fn ++ "_" ++ natRepr k))) (0) (sp + 1)) (sp + 1) (lcl)) (0) (sp + 2)) (sp + 2) (arg)) (0) (sp + 3)) (sp + 3) (ths)) (0) (sp + 4)) (sp + 4) (tht)) (0) (sp + 5)) (2) (sp - (n : Int))) (1) (sp + 5)) (sp + 5) ((r : Int))) (0) (sp + 6)) (14) (sp + 5)) (15) (ρ ("RETURN_" ++ fn ++ "_" ++ natRepr k))) (0) (sp + 5)) (sp - (n : Int)) ((r : Int))⟩
    (by simp (disch := omega) [stepData, applyDest, compValue, symValue, Mach.mk.injEq, Function.update_same, Function.update_noteq, wnorm_bounded, hr0, hr1, hr2, hr3, hr4, hA1, hA2, hA3, hA4, hA5, hA6, hA7, hA8, hA9, hA10, hA11])).trans ?_
  refine (execStraight_cons ρ _ _ _
    ⟨0, sp - (n : Int) + 1, Function.update (Function.update (Function.update (Function.update (Function.update (Function.update (Function.update (Function.update (Function.update (Function.update (Function.update (Function.update (Function.update (Function.update (Function.update (Function.update (Function.update (Function.update (Function.update (ram) (sp) (ρ ("RETURN_" ++ fn ++ "_" ++ natRepr k))) (0) (sp + 1)) (sp + 1) (lcl)) (0) (sp + 2)) (sp + 2) (arg)) (0) (sp + 3)) (sp + 3) (ths)) (0) (sp + 4)) (sp + 4) (tht)) (0) (sp + 5)) (2) (sp - (n : Int))) (1) (sp + 5)) (sp + 5) ((r : Int))) (0) (sp + 6)) (14) (sp + 5)) (15) (ρ ("RETURN_" ++ fn ++ "_" ++ natRepr k))) (0) (sp + 5)) (sp - (n : Int)) ((r : Int))) (0) (sp - (n : Int) + 1)⟩
    (by simp (disch := omega) [stepData, applyDest, compValue, symValue, Mach.mk.injEq, Function.update_same, Function.update_noteq, wnorm_bounded, hr0, hr1, hr2, hr3, hr4, hA1, hA2, hA3, hA4, hA5, hA6, hA7, hA8, hA9, hA10, hA11])).trans ?_
  refine (execStraight_cons ρ _ _ _
    ⟨14, sp - (n : Int) + 1, Function.update (Function.update (Function.update (Function.update (Function.update (Function.update (Function.update (Function.update (Function.update (Function.update (Function.update (Function.update (Function.update (Function.update (Function.update (Function.update (Function.update (Function.update (Function.update (ram) (sp) (ρ ("RETURN_" ++ fn ++ "_" ++ natRepr k))) (0) (sp + 1)) (sp + 1) (lcl)) (0) (sp + 2)) (sp + 2) (arg)) (0) (sp + 3)) (sp + 3) (ths)) (0) (sp + 4)) (sp + 4) (tht)) (0) (sp + 5)) (2) (sp - (n : Int))) (1) (sp + 5)) (sp + 5) ((r : Int))) (0) (sp + 6)) (14) (sp + 5)) (15) (ρ ("RETURN_" ++ fn ++ "_" ++ natRepr k))) (0) (sp + 5)) (sp - (n : Int)) ((r : Int))) (0) (sp - (n : Int) + 1)⟩
    (by simp (disch := omega) [stepData, applyDest, compValue, symValue, Mach.mk.injEq, Function.update_same, Function.update_noteq, wnorm_bounded, hr0, hr1, hr2, hr3, hr4, hA1, hA2, hA3, hA4, hA5, hA6, hA7, hA8, hA9, hA10, hA11])).trans ?_
  refine (execStraight_cons ρ _ _ _
    ⟨sp + 4, sp - (n : Int) + 1, Function.update (Function.update (Function.update (Function.update (Function.update (Function.update (Function.update (Function.update (Function.update (Function.update (Function.update (Function.update (Function.update (Function.update (Function.update (Function.update (Function.update (Function.update (Function.update (Function.update (ram) (sp) (ρ ("RETURN_" ++ fn ++ "_" ++ natRepr k))) (0) (sp + 1)) (sp + 1) (lcl)) (0) (sp + 2)) (sp + 2) (arg)) (0) (sp + 3)) (sp + 3) (ths)) (0) (sp + 4)) (sp + 4) (tht)) (0) (sp + 5)) (2) (sp - (n : Int))) (1) (sp + 5)) (sp + 5) ((r : Int))) (0) (sp + 6)) (14) (sp + 5)) (15) (ρ ("RETURN_" ++ fn ++ "_" ++ natRepr k))) (0) (sp + 5)) (sp - (n : Int)) ((r : Int))) (0) (sp - (n : Int) + 1)) (14) (sp + 4)⟩
    (by simp (disch := omega) [stepData, applyDest, compValue, symValue, Mach.mk.injEq, Function.update_same, Function.update_noteq, wnorm_bounded, hr0, hr1, hr2, hr3, hr4, hA1, hA2, hA3, hA4, hA5, hA6, hA7, hA8, hA9, hA10, hA11])).trans ?_
  refine (execStraight_cons ρ _ _ _
    ⟨sp + 4, tht, Function.update (Function.update (Function.update (Function.update (Function.update (Function.update (Function.update (Function.update (Function.update (Function.update (Function.update (Function.update (Function.update (Function.update (Function.update (Function.update (Function.update (Function.update (Function.update (Function.update (ram) (sp) (ρ ("RETURN_" ++ fn ++ "_" ++ natRepr k))) (0) (sp + 1)) (sp + 1) (lcl)) (0) (sp + 2)) (sp + 2) (arg)) (0) (sp + 3)) (sp + 3) (ths)) (0) (sp + 4)) (sp + 4) (tht)) (0) (sp + 5)) (2) (sp - (n : Int))) (1) (sp + 5)) (sp + 5) ((r : Int))) (0) (sp + 6)) (14) (sp + 5)) (15) (ρ ("RETURN_" ++ fn ++ "_" ++ natRepr k))) (0) (sp + 5)) (sp - (n : Int)) ((r : Int))) (0) (sp - (n : Int) + 1)) (14) (sp + 4)⟩
    (by simp (disch := omega) [stepData, applyDest, compValue, symValue, Mach.mk.injEq, Function.update_same, Function.update_noteq, wnorm_bounded, hr0, hr1, hr2, hr3, hr4, hA1, hA2, hA3, hA4, hA5, hA6, hA7, hA8, hA9, hA10, hA11])).trans ?_
  refine (execStraight_cons ρ _ _ _
    ⟨4, tht, Function.update (Function.update (Function.update (Function.update (Function.update (Function.update (Function.update (Function.update (Function.update (Function.update (Function.update (Function.update (Function.update (Function.update (Function.update (Function.update (Function.update (Function.update (Function.update (Function.update (ram) (sp) (ρ ("RETURN_" ++ fn ++ "_" ++ natRepr k))) (0) (sp + 1)) (sp + 1) (lcl)) (0) (sp + 2)) (sp + 2) (arg)) (0) (sp + 3)) (sp + 3) (ths)) (0) (sp + 4)) (sp + 4) (tht)) (0) (sp + 5)) (2) (sp - (n : Int))) (1) (sp + 5)) (sp + 5) ((r : Int))) (0) (sp + 6)) (14) (sp + 5)) (15) (ρ ("RETURN_" ++ fn ++ "_" ++ natRepr k))) (0) (sp + 5)) (sp - (n : Int)) ((r : Int))) (0) (sp - (n : Int) + 1)) (14) (sp + 4)⟩
    (by simp (disch := omega) [stepData, applyDest, compValue, symValue, Mach.mk.injEq, Function.update_same, Function.update_noteq, wnorm_bounded, hr0, hr1, hr2, hr3, hr4, hA1, hA2, hA3, hA4, hA5, hA6, hA7, hA8, hA9, hA10, hA11])).trans ?_
  refine (execStraight_cons ρ _ _ _
    ⟨4, tht, Function.update (Function.update (Function.update (Function.update (Function.update (Function.update (Function.update (Function.update (Function.update (Function.update (Function.update (Function.update (Function.update (Function.update (Function.update (Function.update (Function.update (Function.update (Function.update (Function.update (Function.update (ram) (sp) (ρ ("RETURN_" ++ fn ++ "_" ++ natRepr k))) (0) (sp + 1)) (sp + 1) (lcl)) (0) (sp + 2)) (sp + 2) (arg)) (0) (sp + 3)) (sp + 3) (ths)) (0) (sp + 4)) (sp + 4) (tht)) (0) (sp + 5)) (2) (sp - (n : Int))) (1) (sp + 5)) (sp + 5) ((r : Int))) (0) (sp + 6)) (14) (sp + 5)) (15) (ρ ("RETURN_" ++ fn ++ "_" ++ natRepr k))) (0) (sp + 5)) (sp - (n : Int)) ((r : Int))) (0) (sp - (n : Int) + 1)) (14) (sp + 4)) (4) (tht)⟩
    (by simp (disch := omega) [stepData, applyDest, compValue, symValue, Mach.mk.injEq, Function.update_same, Function.update_noteq, wnorm_bounded, hr0, hr1, hr2, hr3, hr4, hA1, hA2, hA3, hA4, hA5, hA6, hA7, hA8, hA9, hA10, hA11])).trans ?_
  refine (execStraight_cons ρ _ _ _
    ⟨14, tht, Function.update (Function.update (Function.update (Function.update (Function.update (Function.update (Function.update (Function.update (Function.update (Function.update (Function.update (Function.update (Function.update (Function.update (Function.update (Function.update (Function.update (Function.update (Function.update (Function.update (Function.update (ram) (sp) (ρ ("RETURN_" ++ fn ++ "_" ++ natRepr k))) (0) (sp + 1)) (sp + 1) (lcl)) (0) (sp + 2)) (sp + 2) (arg)) (0) (sp + 3)) (sp + 3) (ths)) (0) (sp + 4)) (sp + 4) (tht)) (0) (sp + 5)) (2) (sp - (n : Int))) (1) (sp + 5)) (sp + 5) ((r : Int))) (0) (sp + 6)) (14) (sp + 5)) (15) (ρ ("RETURN_" ++ fn ++ "_" ++ natRepr k))) (0) (sp + 5)) (sp - (n : Int)) ((r : Int))) (0) (sp - (n : Int) + 1)) (14) (sp + 4)) (4) (tht)⟩
    (by simp (disch := omega) [stepData, applyDest, compValue, symValue, Mach.mk.injEq, Function.update_same, Function.update_noteq, wnorm_bounded, hr0, hr1, hr2, hr3, hr4, hA1, hA2, hA3, hA4, hA5, hA6, hA7, hA8, hA9, hA10, hA11])).trans ?_
  refine (execStraight_cons ρ _ _ _
    ⟨sp + 3, tht, Function.update (Function.update (Function.update (Function.update (Function.update (Function.update (Function.update (Function.update (Function.update (Function.update (Function.update (Function.update (Function.update (Function.update (Function.update (Function.update (Function.update (Function.update (Function.update (Function.update (Function.update (Function.update (ram) (sp) (ρ ("RETURN_" ++ fn ++ "_" ++ natRepr k))) (0) (sp + 1)) (sp + 1) (lcl)) (0) (sp + 2)) (sp + 2) (arg)) (0) (sp + 3)) (sp + 3) (ths)) (0) (sp + 4)) (sp + 4) (tht)) (0) (sp + 5)) (2) (sp - (n : Int))) (1) (sp + 5)) (sp + 5) ((r : Int))) (0) (sp + 6)) (14) (sp + 5)) (15) (ρ ("RETURN_" ++ fn ++ "_" ++ natRepr k))) (0) (sp + 5)) (sp - (n : Int)) ((r : Int))) (0) (sp - (n : Int) + 1)) (14) (sp + 4)) (4) (tht)) (14) (sp + 3)⟩
    (by simp (disch := omega) [stepData, applyDest, compValue, symValue, Mach.mk.injEq, Function.update_same, Function.update_noteq, wnorm_bounded, hr0, hr1, hr2, hr3, hr4, hA1, hA2, hA3, hA4, hA5, hA6, hA7, hA8, hA9, hA10, hA11])).trans ?_
  refine (execStraight_cons ρ _ _ _
    ⟨sp + 3, ths, Function.update (Function.update (Function.update (Function.update (Function.update (Function.update (Function.update (Function.update (Function.update (Function.update (Function.update (Function.update (Function.update (Function.update (Function.update (Function.update (Function.update (Function.update (Function.update (Function.update (Function.update (Function.update (ram) (sp) (ρ ("RETURN_" ++ fn ++ "_" ++ natRepr k))) (0) (sp + 1)) (sp + 1) (lcl)) (0) (sp + 2)) (sp + 2) (arg)) (0) (sp + 3)) (sp + 3) (ths)) (0) (sp + 4)) (sp + 4) (tht)) (0) (sp + 5)) (2) (sp - (n : Int))) (1) (sp + 5)) (sp + 5) ((r : Int))) (0) (sp + 6)) (14) (sp + 5)) (15) (ρ ("RETURN_" ++ fn ++ "_" ++ natRepr k))) (0) (sp + 5)) (sp - (n : Int)) ((r : Int))) (0) (sp - (n : Int) + 1)) (14) (sp + 4)) (4) (tht)) (14) (sp + 3)⟩
    (by simp (disch := omega) [stepData, applyDest, compValue, symValue, Mach.mk.injEq, Function.update_same, Function.update_noteq, wnorm_bounded, hr0, hr1, hr2, hr3, hr4, hA1, hA2, hA3, hA4, hA5, hA6, hA7, hA8, hA9, hA10, hA11])).trans ?_
  refine (execStraight_cons ρ _ _ _
    ⟨3, ths, Function.update (Function.update (Function.update (Function.update (Function.update (Function.update (Function.update (Function.update (Function.update (Function.update (Function.update (Function.update (Function.update (Function.update (Function.update (Function.update (Function.update (Function.update (Function.update (Function.update (Function.update (Function.update (ram) (sp) (ρ ("RETURN_" ++ fn ++ "_" ++ natRepr k))) (0) (sp + 1)) (sp + 1) (lcl)) (0) (sp + 2)) (sp + 2) (arg)) (0) (sp + 3)) (sp + 3) (ths)) (0) (sp + 4)) (sp + 4) (tht)) (0) (sp + 5)) (2) (sp - (n : Int))) (1) (sp + 5)) (sp + 5) ((r : Int))) (0) (sp + 6)) (14) (sp + 5)) (15) (ρ ("RETURN_" ++ fn ++ "_" ++ natRepr k))) (0) (sp + 5)) (sp - (n : Int)) ((r : Int))) (0) (sp - (n : Int) + 1)) (14) (sp + 4)) (4) (tht)) (14) (sp + 3)⟩
    (by simp (disch := omega) [stepData, applyDest, compValue, symValue, Mach.mk.injEq, Function.update_same, Function.update_noteq, wnorm_bounded, hr0, hr1, hr2, hr3, hr4, hA1, hA2, hA3, hA4, hA5, hA6, hA7, hA8, hA9, hA10, hA11])).trans ?_
  refine (execStraight_cons ρ _ _ _
    ⟨3, ths, Function.update (Function.update (Function.update (Function.update (Function.update (Function.update (Function.update (Function.update (Function.update (Function.update (Function.update (Function.update (Function.update (Function.update (Function.update (Function.update (Function.update (Function.update (Function.update (Function.update (Function.update (Function.update (Function.update (ram) (sp) (ρ ("RETURN_" ++ fn ++ "_" ++ natRepr k))) (0) (sp + 1)) (sp + 1) (lcl)) (0) (sp + 2)) (sp + 2) (arg)) (0) (sp + 3)) (sp + 3) (ths)) (0) (sp + 4)) (sp + 4) (tht)) (0) (sp + 5)) (2) (sp - (n : Int))) (1) (sp + 5)) (sp + 5) ((r : Int))) (0) (sp + 6)) (14) (sp + 5)) (15) (ρ ("RETURN_" ++ fn ++ "_" ++ natRepr k))) (0) (sp + 5)) (sp - (n : Int)) ((r : Int))) (0) (sp - (n : Int) + 1)) (14) (sp + 4)) (4) (tht)) (14) (sp + 3)) (3) (ths)⟩
    (by simp (disch := omega) [stepData, applyDest, compValue, symValue, Mach.mk.injEq, Function.update_same, Function.update_noteq, wnorm_bounded, hr0, hr1, hr2, hr3, hr4, hA1, hA2, hA3, hA4, hA5, hA6, hA7, hA8, hA9, hA10, hA11])).trans ?_
  refine (execStraight_cons ρ _ _ _
    ⟨14, ths, Function.update (Function.update (Function.update (Function.update (Function.update (Function.update (Function.update (Function.update (Function.update (Function.update (Function.update (Function.update (Function.update (Function.update (Function.update (Function.update (Function.update (Function.update (Function.update (Function.update (Function.update (Function.update (Function.update (ram) (sp) (ρ ("RETURN_" ++ fn ++ "_" ++ natRepr k))) (0) (sp + 1)) (sp + 1) (lcl)) (0) (sp + 2)) (sp + 2) (arg)) (0) (sp + 3)) (sp + 3) (ths)) (0) (sp + 4)) (sp + 4) (tht)) (0) (sp + 5)) (2) (sp - (n : Int))) (1) (sp + 5)) (sp + 5) ((r : Int))) (0) (sp + 6)) (14) (sp + 5)) (15) (ρ ("RETURN_" ++ fn ++ "_" ++ natRepr k))) (0) (sp + 5)) (sp - (n : Int)) ((r : Int))) (0) (sp - (n : Int) + 1)) (14) (sp + 4)) (4) (tht)) (14) (sp + 3)) (3) (ths)⟩
    (by simp (disch := omega) [stepData, applyDest, compValue, symValue, Mach.mk.injEq, Function.update_same, Function.update_noteq, wnorm_bounded, hr0, hr1, hr2, hr3, hr4, hA1, hA2, hA3, hA4, hA5, hA6, hA7, hA8, hA9, hA10, hA11])).trans ?_
  refine (execStraight_cons ρ _ _ _
    ⟨sp + 2, ths, Function.update (Function.update (Function.update (Function.update (Function.update (Function.update (Function.update (Function.update (Function.update (Function.update (Function.update (Function.update (Function.update (Function.update (Function.update (Function.update (Function.update (Function.update (Function.update (Function.update (Function.update (Function.update (Function.update (Function.update (ram) (sp) (ρ ("RETURN_" ++ fn ++ "_" ++ natRepr k))) (0) (sp + 1)) (sp + 1) (lcl)) (0) (sp + 2)) (sp + 2) (arg)) (0) (sp + 3)) (sp + 3) (ths)) (0) (sp + 4)) (sp + 4) (tht)) (0) (sp + 5)) (2) (sp - (n : Int))) (1) (sp + 5)) (sp + 5) ((r : Int))) (0) (sp + 6)) (14) (sp + 5)) (15) (ρ ("RETURN_" ++ fn ++ "_" ++ natRepr k))) (0) (sp + 5)) (sp - (n : Int)) ((r : Int))) (0) (sp - (n : Int) + 1)) (14) (sp + 4)) (4) (tht)) (14) (sp + 3)) (3) (ths)) (14) (sp + 2)⟩
    (by simp (disch := omega) [stepData, applyDest, compValue, symValue, Mach.mk.injEq, Function.update_same, Function.update_noteq, wnorm_bounded, hr0, hr1, hr2, hr3, hr4, hA1, hA2, hA3, hA4, hA5, hA6, hA7, hA8, hA9, hA10, hA11])).trans ?_
  refine (execStraight_cons ρ _ _ _
    ⟨sp + 2, arg, Function.update (Function.update (Function.update (Function.update (Function.update (Function.update (Function.update (Function.update (Function.update (Function.update (Function.update (Function.update (Function.update (Function.update (Function.update (Function.update (Function.update (Function.update (Function.update (Function.update (Function.update (Function.update (Function.update (Function.update (ram) (sp) (ρ ("RETURN_" ++ fn ++ "_" ++ natRepr k))) (0) (sp + 1)) (sp + 1) (lcl)) (0) (sp + 2)) (sp + 2) (arg)) (0) (sp + 3)) (sp + 3) (ths)) (0) (sp + 4)) (sp + 4) (tht)) (0) (sp + 5)) (2) (sp - (n : Int))) (1) (sp + 5)) (sp + 5) ((r : Int))) (0) (sp + 6)) (14) (sp + 5)) (15) (ρ ("RETURN_" ++ fn ++ "_" ++ natRepr k))) (0) (sp + 5)) (sp - (n : Int)) ((r : Int))) (0) (sp - (n : Int) + 1)) (14) (sp + 4)) (4) (tht)) (14) (sp + 3)) (3) (ths)) (14) (sp + 2)⟩
    (by simp (disch := omega) [stepData, applyDest, compValue, symValue, Mach.mk.injEq, Function.update_same, Function.update_noteq, wnorm_bounded, hr0, hr1, hr2, hr3, hr4, hA1, hA2, hA3, hA4, hA5, hA6, hA7, hA8, hA9, hA10, hA11])).trans ?_
  refine (execStraight_cons ρ _ _ _
    ⟨2, arg, Function.update (Function.update (Function.update (Function.update (Function.update (Function.update (Function.update (Function.update (Function.update (Function.update (Function.update (Function.update (Function.update (Function.update (Function.update (Function.update (Function.update (Function.update (Function.update (Function.update (Function.update (Function.update (Function.update (Function.update (ram) (sp) (ρ ("RETURN_" ++ fn ++ "_" ++ natRepr k))) (0) (sp + 1)) (sp + 1) (lcl)) (0) (sp + 2)) (sp + 2) (arg)) (0) (sp + 3)) (sp + 3) (ths)) (0) (sp + 4)) (sp + 4) (tht)) (0) (sp + 5)) (2) (sp - (n : Int))) (1) (sp + 5)) (sp + 5) ((r : Int))) (0) (sp + 6)) (14) (sp + 5)) (15) (ρ ("RETURN_" ++ fn ++ "_" ++ natRepr k))) (0) (sp + 5)) (sp - (n : Int)) ((r : Int))) (0) (sp - (n : Int) + 1)) (14) (sp + 4)) (4) (tht)) (14) (sp + 3)) (3) (ths)) (14) (sp + 2)⟩
    (by simp (disch := omega) [stepData, applyDest, compValue, symValue, Mach.mk.injEq, Function.update_same, Function.update_noteq, wnorm_bounded, hr0, hr1, hr2, hr3, hr4, hA1, hA2, hA3, hA4, hA5, hA6, hA7, hA8, hA9, hA10, hA11])).trans ?_
  refine (execStraight_cons ρ _ _ _
    ⟨2, arg, Function.update (Function.update (Function.update (Function.update (Function.update (Function.update (Function.update (Function.update (Function.update (Function.update (Function.update (Function.update (Function.update (Function.update (Function.update (Function.update (Function.update (Function.update (Function.update (Function.update (Function.update (Function.update (Function.update (Function.update (Function.update (ram) (sp) (ρ ("RETURN_" ++ fn ++ "_" ++ natRepr k))) (0) (sp + 1)) (sp + 1) (lcl)) (0) (sp + 2)) (sp + 2) (arg)) (0) (sp + 3)) (sp + 3) (ths)) (0) (sp + 4)) (sp + 4) (tht)) (0) (sp + 5)) (2) (sp - (n : Int))) (1) (sp + 5)) (sp + 5) ((r : Int))) (0) (sp + 6)) (14) (sp + 5)) (15) (ρ ("RETURN_" ++ fn ++ "_" ++ natRepr k))) (0) (sp + 5)) (sp - (n : Int)) ((r : Int))) (0) (sp - (n : Int) + 1)) (14) (sp + 4)) (4) (tht)) (14) (sp + 3)) (3) (ths)) (14) (sp + 2)) (2) (arg)⟩
    (by simp (disch := omega) [stepData, applyDest, compValue, symValue, Mach.mk.injEq, Function.update_same, Function.update_noteq, wnorm_bounded, hr0, hr1, hr2, hr3, hr4, hA1, hA2, hA3, hA4, hA5, hA6, hA7, hA8, hA9, hA10, hA11])).trans ?_
  refine (execStraight_cons ρ _ _ _
    ⟨14, arg, Function.update (Function.update (Function.update (Function.update (Function.update (Function.update (Function.update (Function.update (Function.update (Function.update (Function.update (Function.update (Function.update (Function.update (Function.update (Function.update (Function.update (Function.update (Function.update (Function.update (Function.update (Function.update (Function.update (Function.update (Function.update (ram) (sp) (ρ ("RETURN_" ++ fn ++ "_" ++ natRepr k))) (0) (sp + 1)) (sp + 1) (lcl)) (0) (sp + 2)) (sp + 2) (arg)) (0) (sp + 3)) (sp + 3) (ths)) (0) (sp + 4)) (sp + 4) (tht)) (0) (sp + 5)) (2) (sp - (n : Int))) (1) (sp + 5)) (sp + 5) ((r : Int))) (0) (sp + 6)) (14) (sp + 5)) (15) (ρ ("RETURN_" ++ fn ++ "_" ++ natRepr k))) (0) (sp + 5)) (sp - (n : Int)) ((r : Int))) (0) (sp - (n : Int) + 1)) (14) (sp + 4)) (4) (tht)) (14) (sp + 3)) (3) (ths)) (14) (sp + 2)) (2) (arg)⟩
    (by simp (disch := omega) [stepData, applyDest, compValue, symValue, Mach.mk.injEq, Function.update_same, Function.update_noteq, wnorm_bounded, hr0, hr1, hr2, hr3, hr4, hA1, hA2, hA3, hA4, hA5, hA6, hA7, hA8, hA9, hA10, hA11])).trans ?_
  refine (execStraight_cons ρ _ _ _
    ⟨sp + 1, arg, Function.update (Function.update (Function.update (Function.update (Function.update (Function.update (Function.update (Function.update (Function.update (Function.update (Function.update (Function.update (Function.update (Function.update (Function.update (Function.update (Function.update (Function.update (Function.update (Function.update (Function.update (Function.update (Function.update (Function.update (Function.update (Function.update (ram) (sp) (ρ ("RETURN_" ++ fn ++ "_" ++ natRepr k))) (0) (sp + 1)) (sp + 1) (lcl)) (0) (sp + 2)) (sp + 2) (arg)) (0) (sp + 3)) (sp + 3) (ths)) (0) (sp + 4)) (sp + 4) (tht)) (0) (sp + 5)) (2) (sp - (n : Int))) (1) (sp + 5)) (sp + 5) ((r : Int))) (0) (sp + 6)) (14) (sp + 5)) (15) (ρ ("RETURN_" ++ fn ++ "_" ++ natRepr k))) (0) (sp + 5)) (sp - (n : Int)) ((r : Int))) (0) (sp - (n : Int) + 1)) (14) (sp + 4)) (4) (tht)) (14) (sp + 3)) (3) (ths)) (14) (sp + 2)) (2) (arg)) (14) (sp + 1)⟩
    (by simp (disch := omega) [stepData, applyDest, compValue, symValue, Mach.mk.injEq, Function.update_same, Function.update_noteq, wnorm_bounded, hr0, hr1, hr2, hr3, hr4, hA1, hA2, hA3, hA4, hA5, hA6, hA7, hA8, hA9, hA10, hA11])).trans ?_
  refine (execStraight_cons ρ _ _ _
    ⟨sp + 1, lcl, Function.update (Function.update (Function.update (Function.update (Function.update (Function.update (Function.update (Function.update (Function.update (Function.update (Function.update (Function.update (Function.update (Function.update (Function.update (Function.update (Function.update (Function.update (Function.update (Function.update (Function.update (Function.update (Function.update (Function.update (Function.update (Function.update (ram) (sp) (ρ ("RETURN_" ++ fn ++ "_" ++ natRepr k))) (0) (sp + 1)) (sp + 1) (lcl)) (0) (sp + 2)) (sp + 2) (arg)) (0) (sp + 3)) (sp + 3) (ths)) (0) (sp + 4)) (sp + 4) (tht)) (0) (sp + 5)) (2) (sp - (n : Int))) (1) (sp + 5)) (sp + 5) ((r : Int))) (0) (sp + 6)) (14) (sp + 5)) (15) (ρ ("RETURN_" ++ fn ++ "_" ++ natRepr k))) (0) (sp + 5)) (sp - (n : Int)) ((r : Int))) (0) (sp - (n : Int) + 1)) (14) (sp + 4)) (4) (tht)) (14) (sp + 3)) (3) (ths)) (14) (sp + 2)) (2) (arg)) (14) (sp + 1)⟩
    (by simp (disch := omega) [stepData, applyDest, compValue, symValue, Mach.mk.injEq, Function.update_same, Function.update_noteq, wnorm_bounded, hr0, hr1, hr2, hr3, hr4, hA1, hA2, hA3, hA4, hA5, hA6, hA7, hA8, hA9, hA10, hA11])).trans ?_
  refine (execStraight_cons ρ _ _ _
    ⟨1, lcl, Function.update (Function.update (Function.update (Function.update (Function.update (Function.update (Function.update (Function.update (Function.update (Function.update (Function.update (Function.update (Function.update (Function.update (Function.update (Function.update (Function.update (Function.update (Function.update (Function.update (Function.update (Function.update (Function.update (Function.update (Function.update (Function.update (ram) (sp) (ρ ("RETURN_" ++ fn ++ "_" ++ natRepr k))) (0) (sp + 1)) (sp + 1) (lcl)) (0) (sp + 2)) (sp + 2) (arg)) (0) (sp + 3)) (sp + 3) (ths)) (0) (sp + 4)) (sp + 4) (tht)) (0) (sp + 5)) (2) (sp - (n : Int))) (1) (sp + 5)) (sp + 5) ((r : Int))) (0) (sp + 6)) (14) (sp + 5)) (15) (ρ ("RETURN_" ++ fn ++ "_" ++ natRepr k))) (0) (sp + 5)) (sp - (n : Int)) ((r : Int))) (0) (sp - (n : Int) + 1)) (14) (sp + 4)) (4) (tht)) (14) (sp + 3)) (3) (ths)) (14) (sp + 2)) (2) (arg)) (14) (sp + 1)⟩
    (by simp (disch := omega) [stepData, applyDest, compValue, symValue, Mach.mk.injEq, Function.update_same, Function.update_noteq, wnorm_bounded, hr0, hr1, hr2, hr3, hr4, hA1, hA2, hA3, hA4, hA5, hA6, hA7, hA8, hA9, hA10, hA11])).trans ?_
  refine (execStraight_cons ρ _ _ _
    ⟨1, lcl, Function.update (Function.update (Function.update (Function.update (Function.update (Function.update (Function.update (Function.update (Function.update (Function.update (Function.update (Function.update (Function.update (Function.update (Function.update (Function.update (Function.update (Function.update (Function.update (Function.update (Function.update (Function.update (Function.update (Function.update (Function.update (Function.update (Function.update (ram) (sp) (ρ ("RETURN_" ++ fn ++ "_" ++ natRepr k))) (0) (sp + 1)) (sp + 1) (lcl)) (0) (sp + 2)) (sp + 2) (arg)) (0) (sp + 3)) (sp + 3) (ths)) (0) (sp + 4)) (sp + 4) (tht)) (0) (sp + 5)) (2) (sp - (n : Int))) (1) (sp + 5)) (sp + 5) ((r : Int))) (0) (sp + 6)) (14) (sp + 5)) (15) (ρ ("RETURN_" ++ fn ++ "_" ++ natRepr k))) (0) (sp + 5)) (sp - (n : Int)) ((r : Int))) (0) (sp - (n : Int) + 1)) (14) (sp + 4)) (4) (tht)) (14) (sp + 3)) (3) (ths)) (14) (sp + 2)) (2) (arg)) (14) (sp + 1)) (1) (lcl)⟩
    (by simp (disch := omega) [stepData, applyDest, compValue, symValue, Mach.mk.injEq, Function.update_same, Function.update_noteq, wnorm_bounded, hr0, hr1, hr2, hr3, hr4, hA1, hA2, hA3, hA4, hA5, hA6, hA7, hA8, hA9, hA10, hA11])).trans ?_
  refine (execStraight_cons ρ _ _ _
    ⟨15, lcl, Function.update (Function.update (Function.update (Function.update (Function.update (Function.update (Function.update (Function.update (Function.update (Function.update (Function.update (Function.update (Function.update (Function.update (Function.update (Function.update (Function.update (Function.update (Function.update (Function.update (Function.update (Function.update (Function.update (Function.update (Function.update (Function.update (Function.update (ram) (sp) (ρ ("RETURN_" ++ fn ++ "_" ++ natRepr k))) (0) (sp + 1)) (sp + 1) (lcl)) (0) (sp + 2)) (sp + 2) (arg)) (0) (sp + 3)) (sp + 3) (ths)) (0) (sp + 4)) (sp + 4) (tht)) (0) (sp + 5)) (2) (sp - (n : Int))) (1) (sp + 5)) (sp + 5) ((r : Int))) (0) (sp + 6)) (14) (sp + 5)) (15) (ρ ("RETURN_" ++ fn ++ "_" ++ natRepr k))) (0) (sp + 5)) (sp - (n : Int)) ((r : Int))) (0) (sp - (n : Int) + 1)) (14) (sp + 4)) (4) (tht)) (14) (sp + 3)) (3) (ths)) (14) (sp + 2)) (2) (arg)) (14) (sp + 1)) (1) (lcl)⟩
    (by simp (disch := omega) [stepData, applyDest, compValue, symValue, Mach.mk.injEq, Function.update_same, Function.update_noteq, wnorm_bounded, hr0, hr1, hr2, hr3, hr4, hA1, hA2, hA3, hA4, hA5, hA6, hA7, hA8, hA9, hA10, hA11])).trans ?_
  refine (execStraight_cons ρ _ _ _
    ⟨ρ ("RETURN_" ++ fn ++ "_" ++ natRepr k), lcl, Function.update (Function.update (Function.update (Function.update (Function.update (Function.update (Function.update (Function.update (Function.update (Function.update (Function.update (Function.update (Function.update (Function.update (Function.update (Function.update (Function.update (Function.update (Function.update (Function.update (Function.update (Function.update (Function.update (Function.update (Function.update (Function.update (Function.update (ram) (sp) (ρ ("RETURN_" ++ fn ++ "_" ++ natRepr k))) (0) (sp + 1)) (sp + 1) (lcl)) (0) (sp + 2)) (sp + 2) (arg)) (0) (sp + 3)) (sp + 3) (ths)) (0) (sp + 4)) (sp + 4) (tht)) (0) (sp + 5)) (2) (sp - (n : Int))) (1) (sp + 5)) (sp + 5) ((r : Int))) (0) (sp + 6)) (14) (sp + 5)) (15) (ρ ("RETURN_" ++ fn ++ "_" ++ natRepr k))) (0) (sp + 5)) (sp - (n : Int)) ((r : Int))) (0) (sp - (n : Int) + 1)) (14) (sp + 4)) (4) (tht)) (14) (sp + 3)) (3) (ths)) (14) (sp + 2)) (2) (arg)) (14) (sp + 1)) (1) (lcl)⟩
    (by simp (disch := omega) [stepData, applyDest, compValue, symValue, Mach.mk.injEq, Function.update_same, Function.update_noteq, wnorm_bounded, hr0, hr1, hr2, hr3, hr4, hA1, hA2, hA3, hA4, hA5, hA6, hA7, hA8, hA9, hA10, hA11])).trans ?_
  refine (execStraight_cons ρ _ _ _
    ⟨ρ ("RETURN_" ++ fn ++ "_" ++ natRepr k), lcl, Function.update (Function.update (Function.update (Function.update (Function.update (Function.update (Function.update (Function.update (Function.update (Function.update (Function.update (Function.update (Function.update (Function.update (Function.update (Function.update (Function.update (Function.update (Function.update (Function.update (Function.update (Function.update (Function.update (Function.update (Function.update (Function.update (Function.update (ram) (sp) (ρ ("RETURN_" ++ fn ++ "_" ++ natRepr k))) (0) (sp + 1)) (sp + 1) (lcl)) (0) (sp + 2)) (sp + 2) (arg)) (0) (sp + 3)) (sp + 3) (ths)) (0) (sp + 4)) (sp + 4) (tht)) (0) (sp + 5)) (2) (sp - (n : Int))) (1) (sp + 5)) (sp + 5) ((r : Int))) (0) (sp + 6)) (14) (sp + 5)) (15) (ρ ("RETURN_" ++ fn ++ "_" ++ natRepr k))) (0) (sp + 5)) (sp - (n : Int)) ((r : Int))) (0) (sp - (n : Int) + 1)) (14) (sp + 4)) (4) (tht)) (14) (sp + 3)) (3) (ths)) (14) (sp + 2)) (2) (arg)) (14) (sp + 1)) (1) (lcl)⟩
    (by simp (disch := omega) [stepData, applyDest, compValue, symValue, Mach.mk.injEq, Function.update_same, Function.update_noteq, wnorm_bounded, hr0, hr1, hr2, hr3, hr4, hA1, hA2, hA3, hA4, hA5, hA6, hA7, hA8, hA9, hA10, hA11])).trans ?_
  exact execStraight_nil ρ _

/-- C2: the emitted call/return pair restores the caller's four base
pointers exactly, leaves the stack pointer at `(pre-call SP) - n + 1`,
and puts the callee's single return value on top of the stack. -/
theorem C2_call_return_roundtrip (ρ : String → Int) (fn : String) (k n r : Nat)
    (sp lcl arg ths tht A0 D0 : Int) (ram : Int → Int)
    (hr0 : ram 0 = sp) (hr1 : ram 1 = lcl) (hr2 : ram 2 = arg)
    (hr3 : ram 3 = ths) (hr4 : ram 4 = tht)
    (hlo : 16 + (n : Int) ≤ sp) (hhi : sp + 6 ≤ 32767)
    (s3 : Mach)
    (hs3 : s3 = execStraight ρ returnProg (execStraight ρ (pushConstProg r)
      (execStraight ρ (callProg fn k n) ⟨A0, D0, ram⟩))) :
    s3.ram 1 = lcl ∧ s3.ram 2 = arg ∧ s3.ram 3 = ths ∧ s3.ram 4 = tht ∧
    s3.ram 0 = sp - (n : Int) + 1 ∧ s3.ram (sp - (n : Int)) = (r : Int) := by
  subst hs3
  rw [call_push_return_exec ρ fn k n r sp lcl arg ths tht A0 D0 ram hr0 hr1 hr2 hr3 hr4 hlo hhi]
  refine ⟨?_, ?_, ?_, ?_, ?_, ?_⟩ <;>
    simp (disch := omega) [Function.update_same, Function.update_noteq]

/-- Witness for `C2_call_return_roundtrip`: `call F 2` with a callee
returning 42, from stack pointer 300 and base pointers 11/12/13/14. -/
theorem C2_witness :
    (execStraight (fun _ => 7) returnProg (execStraight (fun _ => 7) (pushConstProg 42)
      (execStraight (fun _ => 7) (callProg "F" 0 2) ⟨0, 0, ramC2Test⟩))).ram 1 = 11 ∧
    (execStraight (fun _ => 7) returnProg (execStraight (fun _ => 7) (pushConstProg 42)
      (execStraight (fun _ => 7) (callProg "F" 0 2) ⟨0, 0, ramC2Test⟩))).ram 2 = 12 ∧
    (execStraight (fun _ => 7) returnProg (execStraight (fun _ => 7) (pushConstProg 42)
      (execStraight (fun _ => 7) (callProg "F" 0 2) ⟨0, 0, ramC2Test⟩))).ram 3 = 13 ∧
    (execStraight (fun _ => 7) returnProg (execStraight (fun _ => 7) (pushConstProg 42)
      (execStraight (fun _ => 7) (callProg "F" 0 2) ⟨0, 0, ramC2Test⟩))).ram 4 = 14 ∧
    (execStraight (fun _ => 7) returnProg (execStraight (fun _ => 7) (pushConstProg 42)
      (execStraight (fun _ => 7) (callProg "F" 0 2) ⟨0, 0, ramC2Test⟩))).ram 0 = 299 ∧
    (execStraight (fun _ => 7) returnProg (execStraight (fun _ => 7) (pushConstProg 42)
      (execStraight (fun _ => 7) (callProg "F" 0 2) ⟨0, 0, ramC2Test⟩))).ram 298 = 42 := by
  have h := C2_call_return_roundtrip (fun _ => 7) "F" 0 2 42 300 11 12 13 14 0 0 ramC2Test
    rfl rfl rfl rfl rfl (by norm_num) (by norm_num) _ rfl
  obtain ⟨h1, h2, h3, h4, h5, h6⟩ := h
  norm_num at h5 h6
  exact ⟨h1, h2, h3, h4, h5, h6⟩

/-- The fuelled digit extractor agrees with `Nat.digits` in base 10. -/
theorem natDigitsAux_eq (fuel n : Nat) (h : n ≤ fuel) :
    natDigitsAux fuel n = Nat.digits 10 n := by
  induction fuel generalizing n with
  | zero =>
    interval_cases n
    simp [natDigitsAux]
  | succ f ih =>
    cases n with
    | zero => simp [natDigitsAux]
    | succ m =>
      rw [natDigitsAux, Nat.digits_def' (by norm_num : (1:Nat) < 10) (Nat.succ_pos m)]
      have hd : (m + 1) / 10 < m + 1 := Nat.div_lt_self (Nat.succ_pos m) (by norm_num)
      rw [ih _ (by omega)]

/-- Characters of the decimal rendering. -/
theorem natRepr_data (n : Nat) :
    (natRepr n).data =
      if n = 0 then ['0'] else ((Nat.digits 10 n).map Nat.digitChar).reverse := by
  unfold natRepr
  split
  · rfl
  · rw [natDigitsAux_eq n n le_rfl]

/-- `Nat.digitChar` is injective on digits. -/
theorem digitChar_inj_lt (d1 d2 : Nat) (h1 : d1 < 10) (h2 : d2 < 10)
    (h : Nat.digitChar d1 = Nat.digitChar d2) : d1 = d2 := by
  revert h
  interval_cases d1 <;> interval_cases d2 <;> decide

/-- No digit renders as an underscore. -/
theorem digitChar_ne_underscore (d : Nat) (h : d < 10) : Nat.digitChar d ≠ '_' := by
  interval_cases d <;> decide

/-- Only the digit 0 renders as the character 0. -/
theorem digitChar_eq_zero_char (d : Nat) (h : d < 10) (he : Nat.digitChar d = '0') :
    d = 0 := by
  revert he
  interval_cases d <;> decide

/-- Digit lists with equal renderings are equal. -/
theorem map_digitChar_inj (l1 : List Nat) (l2 : List Nat)
    (h1 : ∀ d ∈ l1, d < 10) (h2 : ∀ d ∈ l2, d < 10)
    (h : l1.map Nat.digitChar = l2.map Nat.digitChar) : l1 = l2 := by
  induction l1 generalizing l2 with
  | nil =>
    cases l2 with
    | nil => rfl
    | cons b t2 => simp at h
  | cons a t ih =>
    cases l2 with
    | nil => simp at h
    | cons b t2 =>
      simp only [List.map_cons, List.cons.injEq] at h
      have ha := digitChar_inj_lt a b (h1 a (by simp)) (h2 b (by simp)) h.1
      rw [ha, ih t2 (fun d hd => h1 d (by simp [hd])) (fun d hd => h2 d (by simp [hd])) h.2]

/-- Decimal rendering is injective. -/
theorem natRepr_inj (m n : Nat) (h : natRepr m = natRepr n) : m = n := by
  have hd := congrArg String.data h
  rw [natRepr_data, natRepr_data] at hd
  by_cases hm : m = 0 <;> by_cases hn : n = 0
  · omega
  · exfalso
    rw [if_pos hm, if_neg hn] at hd
    have hd2 := congrArg List.reverse hd
    simp only [List.reverse_reverse] at hd2
    have : Nat.digits 10 n = [0] := by
      cases hds : Nat.digits 10 n with
      | nil => rw [hds] at hd2; simp at hd2
      | cons d t =>
        rw [hds] at hd2
        cases t with
        | nil =>
          simp only [List.map_cons, List.map_nil, List.reverse_cons, List.reverse_nil,
            List.nil_append, List.cons.injEq] at hd2
          have hdlt : d < 10 := Nat.digits_lt_base (by norm_num) (by rw [hds]; simp)
          rw [digitChar_eq_zero_char d hdlt hd2.1.symm]
        | cons d2 t2 => simp at hd2
    have := congrArg (Nat.ofDigits 10) this
    rw [Nat.ofDigits_digits] at this
    simp [Nat.ofDigits] at this
    exact hn this
  · exfalso
    rw [if_neg hm, if_pos hn] at hd
    have hd2 := congrArg List.reverse hd
    simp only [List.reverse_reverse] at hd2
    have : Nat.digits 10 m = [0] := by
      cases hds : Nat.digits 10 m with
      | nil => rw [hds] at hd2; simp at hd2
      | cons d t =>
        rw [hds] at hd2
        cases t with
        | nil =>
          simp only [List.map_cons, List.map_nil, List.reverse_cons, List.reverse_nil,
            List.nil_append, List.cons.injEq] at hd2
          have hdlt : d < 10 := Nat.digits_lt_base (by norm_num) (by rw [hds]; simp)
          rw [digitChar_eq_zero_char d hdlt hd2.1]
        | cons d2 t2 => simp at hd2
    have := congrArg (Nat.ofDigits 10) this
    rw [Nat.ofDigits_digits] at this
    simp [Nat.ofDigits] at this
    exact hm this
  · rw [if_neg hm, if_neg hn] at hd
    have hd2 := List.reverse_injective hd
    have := map_digitChar_inj _ _
      (fun d hdm => Nat.digits_lt_base (by norm_num) hdm)
      (fun d hdm => Nat.digits_lt_base (by norm_num) hdm) hd2
    exact Nat.digits_inj_iff.mp this

/-- A decimal rendering contains no underscore. -/
theorem natRepr_no_underscore (n : Nat) : ∀ c ∈ (natRepr n).data, c ≠ '_' := by
  rw [natRepr_data]
  split
  · intro c hc
    simp only [List.mem_singleton] at hc
    subst hc
    decide
  · intro c hc
    simp only [List.mem_reverse, List.mem_map] at hc
    obtain ⟨d, hd, rfl⟩ := hc
    exact digitChar_ne_underscore d (Nat.digits_lt_base (by norm_num) hd)

/-- Left cancellation for string concatenation. -/
theorem string_append_left_cancel (a b c : String) (h : a ++ b = a ++ c) : b = c := by
  apply String.ext
  have hd := congrArg String.data h
  rw [String.data_append, String.data_append] at hd
  exact List.append_cancel_left hd

/-- A `JUMP_` label never equals a `RETURN_` label. -/
theorem jump_ne_return (x y : String) : ("JUMP_" ++ x) ≠ ("RETURN_" ++ y) := by
  intro h
  have hd := congrArg String.data h
  rw [String.data_append, String.data_append,
    show "JUMP_".data = ['J', 'U', 'M', 'P', '_'] from rfl,
    show "RETURN_".data = ['R', 'E', 'T', 'U', 'R', 'N', '_'] from rfl] at hd
  simp at hd

/-- A `CONTINUE_` label never equals a `RETURN_` label. -/
theorem continue_ne_return (x y : String) : ("CONTINUE_" ++ x) ≠ ("RETURN_" ++ y) := by
  intro h
  have hd := congrArg String.data h
  rw [String.data_append, String.data_append,
    show "CONTINUE_".data = ['C', 'O', 'N', 'T', 'I', 'N', 'U', 'E', '_'] from rfl,
    show "RETURN_".data = ['R', 'E', 'T', 'U', 'R', 'N', '_'] from rfl] at hd
  simp at hd

/-- Splitting at an underscore whose left part is underscore-free is
unambiguous. -/
theorem append_underscore_inj (as : List Char) (bs xs ys : List Char)
    (ha : ∀ c ∈ as, c ≠ '_') (hb : ∀ c ∈ bs, c ≠ '_')
    (h : as ++ '_' :: xs = bs ++ '_' :: ys) : as = bs ∧ xs = ys := by
  induction as generalizing bs with
  | nil =>
    cases bs with
    | nil => simpa using h
    | cons b bt =>
      simp only [List.nil_append, List.cons_append, List.cons.injEq] at h
      exact absurd h.1.symm (hb b (by simp))
  | cons a ta ih =>
    cases bs with
    | nil =>
      simp only [List.nil_append, List.cons_append, List.cons.injEq] at h
      exact absurd h.1 (ha a (by simp))
    | cons b bt =>
      simp only [List.cons_append, List.cons.injEq] at h
      obtain ⟨h1, h2⟩ := h
      obtain ⟨e1, e2⟩ := ih bt (fun c hc => ha c (by simp [hc]))
        (fun c hc => hb c (by simp [hc])) h2
      exact ⟨by rw [h1, e1], e2⟩

/-- Two `RETURN_<fn>_<k>` labels can only coincide when the counter
values coincide (the part after the last underscore is the counter). -/
theorem return_label_inj (f1 f2 : String) (k1 k2 : Nat)
    (h : "RETURN_" ++ f1 ++ "_" ++ natRepr k1 = "RETURN_" ++ f2 ++ "_" ++ natRepr k2) :
    k1 = k2 := by
  have hd := congrArg (fun s : String => s.data.reverse) h
  simp only [String.data_append, List.reverse_append,
    show "_".data = ['_'] from rfl, List.reverse_singleton] at hd
  simp only [List.singleton_append] at hd
  obtain ⟨e1, _⟩ := append_underscore_inj (natRepr k1).data.reverse (natRepr k2).data.reverse
    _ _
    (fun c hc => natRepr_no_underscore k1 c (List.mem_reverse.mp hc))
    (fun c hc => natRepr_no_underscore k2 c (List.mem_reverse.mp hc)) hd
  exact natRepr_inj k1 k2 (String.ext (List.reverse_injective e1))

/-- Reassociation of a return-label concatenation. -/
theorem ret_label_assoc (fn r : String) :
    "RETURN_" ++ fn ++ "_" ++ r = "RETURN_" ++ (fn ++ ("_" ++ r)) := by
  rw [String.append_assoc, String.append_assoc]

/-- Labels of two emissions at distinct counter values never collide. -/
theorem eventLabels_disjoint (e1 e2 : GenEvent) (c1 c2 : Nat) (hne : c1 < c2) :
    ∀ l ∈ eventLabels e1 c1, l ∉ eventLabels e2 c2 := by
  intro l hl hl2
  cases e1 with
  | cmp =>
    cases e2 with
    | cmp =>
      simp only [eventLabels, List.mem_cons, List.not_mem_nil, or_false,
        List.mem_singleton] at hl hl2
      rcases hl with rfl | rfl <;> rcases hl2 with h | h
      · exact absurd (natRepr_inj _ _ (string_append_left_cancel "JUMP_" _ _ h)) (by omega)
      · exact jump_ne_continue _ _ h
      · exact jump_ne_continue _ _ h.symm
      · exact absurd (natRepr_inj _ _ (string_append_left_cancel "CONTINUE_" _ _ h)) (by omega)
    | call fn =>
      simp only [eventLabels, List.mem_cons, List.not_mem_nil, or_false,
        List.mem_singleton] at hl hl2
      rcases hl with rfl | rfl
      · exact jump_ne_return _ _ (hl2.trans (ret_label_assoc fn _))
      · exact continue_ne_return _ _ (hl2.trans (ret_label_assoc fn _))
  | call fn =>
    cases e2 with
    | cmp =>
      simp only [eventLabels, List.mem_cons, List.not_mem_nil, or_false,
        List.mem_singleton] at hl hl2
      rw [hl] at hl2
      rcases hl2 with h | h
      · exact jump_ne_return _ _ (h.symm.trans (ret_label_assoc fn _))
      · exact continue_ne_return _ _ (h.symm.trans (ret_label_assoc fn _))
    | call fn2 =>
      simp only [eventLabels, List.mem_singleton] at hl hl2
      rw [hl] at hl2
      exact absurd (return_label_inj fn fn2 c1 c2 hl2) (by omega)

/-- Every emitted label comes from some event at a counter value at
least the starting one. -/
theorem mem_runLabels (l : String) (evs : List GenEvent) (c : Nat)
    (h : l ∈ runLabels evs c) : ∃ e c2, c ≤ c2 ∧ l ∈ eventLabels e c2 := by
  induction evs generalizing c with
  | nil => simp [runLabels] at h
  | cons e es ih =>
    simp only [runLabels, List.mem_append] at h
    rcases h with h | h
    · exact ⟨e, c, le_rfl, h⟩
    · obtain ⟨e2, c2, hc, hl⟩ := ih (c + 1) h
      exact ⟨e2, c2, by omega, hl⟩

/-- The label symbols of any run of comparison/call emissions are
pairwise distinct, from any starting counter. -/
theorem runLabels_nodup (evs : List GenEvent) (c : Nat) : (runLabels evs c).Nodup := by
  induction evs generalizing c with
  | nil => simp [runLabels]
  | cons e es ih =>
    simp only [runLabels]
    rw [List.nodup_append]
    refine ⟨?_, ih (c + 1), ?_⟩
    · cases e with
      | cmp =>
        rw [show eventLabels GenEvent.cmp c =
          ["JUMP_" ++ natRepr (c + 1), "CONTINUE_" ++ natRepr (c + 1)] from rfl,
          List.nodup_cons]
        refine ⟨?_, List.nodup_singleton _⟩
        simp only [List.mem_singleton]
        exact jump_ne_continue _ _
      | call fn => simp [eventLabels]
    · intro l hl hl2
      obtain ⟨e2, c2, hc, hl2'⟩ := mem_runLabels l es (c + 1) hl2
      exact eventLabels_disjoint e e2 c c2 (by omega) l hl hl2'



/-- C3: across any interleaving of `eq`/`gt`/`lt` emissions and `call`
emissions (repeated callees included), no two emitted label symbols are
textually identical: `label_counter` advances by one per emission and is
never reset, a comparison stamps the post-increment value into its
`JUMP_`/`CONTINUE_` pair and a call stamps the pre-increment value into
its `RETURN_<fn>_<k>` label. -/
theorem C3_label_uniqueness (evs : List GenEvent) : (runLabels evs 0).Nodup :=
  runLabels_nodup evs 0

/-- The counter discipline of the code behind the `GenEvent` model: the
three comparison emissions and `write_call` each advance `label_counter`
by one, `write_call` stamps the pre-increment counter into its return
label, and non-comparison arithmetic leaves the counter alone. -/
theorem label_counter_discipline (st : CWState) (fn : String) (n : Nat) :
    (writer_arithmetic st "eq").1.label_counter = st.label_counter + 1 ∧
    (writer_arithmetic st "gt").1.label_counter = st.label_counter + 1 ∧
    (writer_arithmetic st "lt").1.label_counter = st.label_counter + 1 ∧
    (write_call st fn n).1.label_counter = st.label_counter + 1 ∧
    (write_call st fn n).2 =
      write_call_text fn n ("RETURN_" ++ fn ++ "_" ++ natRepr st.label_counter) ∧
    (writer_arithmetic st "add").1.label_counter = st.label_counter :=
  ⟨rfl, rfl, rfl, rfl, rfl, rfl⟩

/-- The transcription `cmpProg` renders line-for-line to the formatted
`ARITHMETIC_TEMPLATES` text the writer emits (counter value 1). -/
theorem cmpProg_matches_templates :
    asmLines (pyFormat1 ((ARITHMETIC_TEMPLATES "eq").getD "") (natRepr 1)) =
      (cmpProg CmpOp.ceq 1).map renderInstr ∧
    asmLines (pyFormat1 ((ARITHMETIC_TEMPLATES "gt").getD "") (natRepr 1)) =
      (cmpProg CmpOp.cgt 1).map renderInstr ∧
    asmLines (pyFormat1 ((ARITHMETIC_TEMPLATES "lt").getD "") (natRepr 1)) =
      (cmpProg CmpOp.clt 1).map renderInstr := by
  refine ⟨by decide, by decide, by decide⟩

/-- The transcriptions `callProg`, `returnProg` and `pushTemplateProg`
render line-for-line to the texts of `write_call`, `write_return` and
`PUSH_TEMPLATE` (comments and indentation normalised away). -/
theorem call_return_match_writer_text :
    asmLines (write_call_text "F" 2 "RETURN_F_0") = (callProg "F" 0 2).map renderInstr ∧
    asmLines write_return_text = returnProg.map renderInstr ∧
    asmLines PUSH_TEMPLATE = pushTemplateProg.map renderInstr := by
  refine ⟨by decide, by decide, by decide⟩
